import Mathlib

/-!
# ECEN-3753 RTOS Lab 6 (inter-thread communication): embedding of `app.c` / `app.h`

The application code of `Core/Src/app.c` is embedded as programs over an
explicit call tree: every call that leaves `app.c` (CMSIS-RTOS2 primitives, HAL
pin and interrupt-controller functions, the gyro driver) is a node `Prog.call`
whose continuation receives the value the callee returns, `while(1){}` is the
leaf `Prog.spin`, and a normal return is the leaf `Prog.ret`.  Running a program
against an environment (a function giving the answer to the n-th call) yields
the list of calls it makes, in order, and how it ends.
-/

namespace App

/-! ## Types and constants of the headers -/

/-- HAL `GPIO_PinState` (`stm32f4xx_hal_gpio.h`): `GPIO_PIN_RESET = 0`, `GPIO_PIN_SET = 1`. -/
inductive GPIO_PinState where
  | GPIO_PIN_RESET
  | GPIO_PIN_SET
  deriving DecidableEq

/-- GPIO ports named by `app.h`. -/
inductive GPIO_TypeDef where
  | GPIOA
  | GPIOG
  deriving DecidableEq

/-- Interrupt lines named by `app.h`. -/
inductive IRQn_Type where
  | EXTI0_IRQn
  deriving DecidableEq

/-- The enumeration `gyroRotationRate` of `app.h`. -/
inductive gyroRotationRate where
  | counterClockwiseFast
  | counterClockwiseSlow
  | nearlyZero
  | clockwiseSlow
  | clockwiseFast
  deriving DecidableEq

/-- The integer value `app.h` gives each enumerator of `gyroRotationRate`. -/
def gyroRotationRate.toInt : gyroRotationRate → Int
  | .counterClockwiseFast => -15000
  | .counterClockwiseSlow => -2000
  | .nearlyZero => 0
  | .clockwiseSlow => 2000
  | .clockwiseFast => 15000

/-- The `struct Message_t` of `app.c`. -/
structure Message_t where
  buttonState : GPIO_PinState
  rotation : gyroRotationRate
  deriving DecidableEq

/-- CMSIS-RTOS2 `osStatus_t` (`cmsis_os2.h`, which `app.h` includes): the
enumerators `osOK = 0`, `osError = -1`, `osErrorTimeout = -2`,
`osErrorResource = -3`, `osErrorParameter = -4`, `osErrorNoMemory = -5`,
`osErrorISR = -6`, `osStatusReserved = 0x7FFFFFFF`. -/
inductive osStatus_t where
  | osOK
  | osError
  | osErrorTimeout
  | osErrorResource
  | osErrorParameter
  | osErrorNoMemory
  | osErrorISR
  | osStatusReserved
  deriving DecidableEq

/-- The timer kinds of CMSIS-RTOS2. -/
inductive osTimerType_t where
  | osTimerOnce
  | osTimerPeriodic
  deriving DecidableEq

/-- The functions of `app.c` that are handed to the kernel as entry points. -/
inductive EntryPoint where
  | appTimerCallback
  | gyroInput
  | buttonInput
  | ledOutput
  deriving DecidableEq

/-- A null handle (`NULL`); handles are modelled as numbers, `0` being `NULL`. -/
def NULL : Nat := 0

def GPIO_PIN_0 : Nat := 0x0001
def GPIO_PIN_13 : Nat := 0x2000
def GPIO_PIN_14 : Nat := 0x4000

def BUTTON_PIN : Nat := GPIO_PIN_0
def BUTTON_PORT : GPIO_TypeDef := .GPIOA
def BUTTON_IRQn : IRQn_Type := .EXTI0_IRQn
def RED_LED_PIN : Nat := GPIO_PIN_14
def RED_LED_PORT : GPIO_TypeDef := .GPIOG
def GREEN_LED_PIN : Nat := GPIO_PIN_13
def GREEN_LED_PORT : GPIO_TypeDef := .GPIOG
def APP_TIMER_TICKS_100MS : Nat := 100
def BUTTON_EVENT_FLAG : Nat := 0x01
def MAX_MSG_COUNT : Nat := 8
def DEFAULT_MSG_PRIORITY : Nat := 0
def MAKE_BINARY_SEMAPHORE : Nat := 1
def SEMAPHORE_ONE_INIT_TOKEN : Nat := 1

/-- CMSIS-RTOS2 `osWaitForever`. -/
def osWaitForever : Nat := 0xFFFFFFFF
/-- CMSIS-RTOS2 `osFlagsWaitAll`. -/
def osFlagsWaitAll : Nat := 0x00000001
/-- CMSIS-RTOS2 `osFlagsError`: the bit that marks a flags return value as an error code. -/
def osFlagsError : Nat := 0x80000000
def osFlagsErrorUnknown : Nat := 0xFFFFFFFF
def osFlagsErrorTimeout : Nat := 0xFFFFFFFE
def osFlagsErrorResource : Nat := 0xFFFFFFFD
def osFlagsErrorParameter : Nat := 0xFFFFFFFC
def osFlagsErrorISR : Nat := 0xFFFFFFFA

/-! ## Calls that leave `app.c` -/

/-- Every call `app.c` makes to a function it does not define, with its arguments.
Attribute pointers (`&appTimerAttr`, ...), the `NULL` arguments and the element
size of the queue are left out; a handle argument is the handle value, and a
pointer to a message is the message it points at when the call is made. -/
inductive Call where
  | osTimerNew (func : EntryPoint) (ty : osTimerType_t)
  | osTimerStart (timer_id : Nat) (ticks : Nat)
  | osSemaphoreNew (max_count : Nat) (initial_count : Nat)
  | osEventFlagsNew
  | osMessageQueueNew (msg_count : Nat)
  | osThreadNew (func : EntryPoint)
  | osSemaphoreRelease (semaphore_id : Nat)
  | osSemaphoreAcquire (semaphore_id : Nat) (timeout : Nat)
  | osEventFlagsWait (ef_id : Nat) (flags : Nat) (options : Nat) (timeout : Nat)
  | osEventFlagsSet (ef_id : Nat) (flags : Nat)
  | osMessageQueuePut (mq_id : Nat) (msg : Message_t) (msg_prio : Nat) (timeout : Nat)
  | osMessageQueueGet (mq_id : Nat) (buf : Message_t) (timeout : Nat)
  | Gyro_Get_Velocity
  | HAL_GPIO_ReadPin (port : GPIO_TypeDef) (pin : Nat)
  | HAL_GPIO_WritePin (port : GPIO_TypeDef) (pin : Nat) (state : GPIO_PinState)
  | HAL_NVIC_DisableIRQ (irq : IRQn_Type)
  | HAL_NVIC_EnableIRQ (irq : IRQn_Type)
  | __HAL_GPIO_EXTI_CLEAR_IT (pin : Nat)
  deriving DecidableEq

/-- What each call hands back to `app.c`: a handle, a status, a flags word, the
raw velocity, a pin level, or nothing.  `osMessageQueueGet` hands back its status
together with the contents of the caller's buffer after the call. -/
@[reducible] def Resp : Call → Type
  | .osTimerNew _ _ => Nat
  | .osTimerStart _ _ => osStatus_t
  | .osSemaphoreNew _ _ => Nat
  | .osEventFlagsNew => Nat
  | .osMessageQueueNew _ => Nat
  | .osThreadNew _ => Nat
  | .osSemaphoreRelease _ => osStatus_t
  | .osSemaphoreAcquire _ _ => osStatus_t
  | .osEventFlagsWait _ _ _ _ => Nat
  | .osEventFlagsSet _ _ => Nat
  | .osMessageQueuePut _ _ _ _ => osStatus_t
  | .osMessageQueueGet _ _ _ => osStatus_t × Message_t
  | .Gyro_Get_Velocity => Int
  | .HAL_GPIO_ReadPin _ _ => GPIO_PinState
  | .HAL_GPIO_WritePin _ _ _ => Unit
  | .HAL_NVIC_DisableIRQ _ => Unit
  | .HAL_NVIC_EnableIRQ _ => Unit
  | .__HAL_GPIO_EXTI_CLEAR_IT _ => Unit

/-- A C function body as a tree of calls: `ret a` returns `a`, `spin` is the
non-returning `while(1){}`, `call c k` calls `c` and continues with `k r` where
`r` is what the call returned. -/
inductive Prog (α : Type) where
  | ret (a : α)
  | spin
  | call (c : Call) (k : Resp c → Prog α)

/-- Sequencing: run `p`, then `f` on its result; nothing follows a `spin`. -/
def Prog.bind {α β : Type} : Prog α → (α → Prog β) → Prog β
  | .ret a, f => f a
  | .spin, _ => .spin
  | .call c k, f => .call c (fun r => (k r).bind f)

instance : Monad Prog where
  pure := Prog.ret
  bind := Prog.bind

/-- How a program ends: it returns a value, or it is in `while(1){}` for ever. -/
inductive Outcome (α : Type) where
  | returned (a : α)
  | halted
  deriving DecidableEq

/-- An environment answers the `n`-th call of a context (counted from 0). -/
abbrev Env := Nat → (c : Call) → Resp c

/-- The run of a program whose first call is number `n`: how it ends and the
calls it made, in order. -/
def Prog.run {α : Type} : Prog α → Env → Nat → Outcome α × List Call
  | .ret a, _, _ => (.returned a, [])
  | .spin, _, _ => (.halted, [])
  | .call c k, env, n =>
    let r := (k (env n c)).run env (n + 1)
    (r.1, c :: r.2)

/-! ## The callees, typed -/

def Gyro_Get_Velocity : Prog Int := .call .Gyro_Get_Velocity .ret

def HAL_GPIO_ReadPin (port : GPIO_TypeDef) (pin : Nat) : Prog GPIO_PinState :=
  .call (.HAL_GPIO_ReadPin port pin) .ret

def HAL_GPIO_WritePin (port : GPIO_TypeDef) (pin : Nat) (state : GPIO_PinState) : Prog Unit :=
  .call (.HAL_GPIO_WritePin port pin state) .ret

def HAL_NVIC_DisableIRQ (irq : IRQn_Type) : Prog Unit := .call (.HAL_NVIC_DisableIRQ irq) .ret

def HAL_NVIC_EnableIRQ (irq : IRQn_Type) : Prog Unit := .call (.HAL_NVIC_EnableIRQ irq) .ret

def __HAL_GPIO_EXTI_CLEAR_IT (pin : Nat) : Prog Unit :=
  .call (.__HAL_GPIO_EXTI_CLEAR_IT pin) .ret

def osTimerNew (func : EntryPoint) (ty : osTimerType_t) : Prog Nat :=
  .call (.osTimerNew func ty) .ret

def osTimerStart (timer_id ticks : Nat) : Prog osStatus_t :=
  .call (.osTimerStart timer_id ticks) .ret

def osSemaphoreNew (max_count initial_count : Nat) : Prog Nat :=
  .call (.osSemaphoreNew max_count initial_count) .ret

def osEventFlagsNew : Prog Nat := .call .osEventFlagsNew .ret

def osMessageQueueNew (msg_count : Nat) : Prog Nat := .call (.osMessageQueueNew msg_count) .ret

def osThreadNew (func : EntryPoint) : Prog Nat := .call (.osThreadNew func) .ret

def osSemaphoreRelease (semaphore_id : Nat) : Prog osStatus_t :=
  .call (.osSemaphoreRelease semaphore_id) .ret

def osSemaphoreAcquire (semaphore_id timeout : Nat) : Prog osStatus_t :=
  .call (.osSemaphoreAcquire semaphore_id timeout) .ret

def osEventFlagsWait (ef_id flags options timeout : Nat) : Prog Nat :=
  .call (.osEventFlagsWait ef_id flags options timeout) .ret

def osEventFlagsSet (ef_id flags : Nat) : Prog Nat := .call (.osEventFlagsSet ef_id flags) .ret

def osMessageQueuePut (mq_id : Nat) (msg : Message_t) (msg_prio timeout : Nat) :
    Prog osStatus_t :=
  .call (.osMessageQueuePut mq_id msg msg_prio timeout) .ret

def osMessageQueueGet (mq_id : Nat) (buf : Message_t) (timeout : Nat) :
    Prog (osStatus_t × Message_t) :=
  .call (.osMessageQueueGet mq_id buf timeout) .ret

/-! ## `app.c`: the leaf functions -/

/-- `getGyroRateOfRotation` of `app.c`. -/
def getGyroRateOfRotation : Prog gyroRotationRate := do
  let rawVelocity ← Gyro_Get_Velocity
  if rawVelocity ≤ gyroRotationRate.counterClockwiseFast.toInt then
    return .counterClockwiseFast
  else if rawVelocity ≤ gyroRotationRate.counterClockwiseSlow.toInt then
    return .counterClockwiseSlow
  else if rawVelocity < gyroRotationRate.clockwiseSlow.toInt then
    return .nearlyZero
  else if rawVelocity < gyroRotationRate.clockwiseFast.toInt then
    return .clockwiseSlow
  else
    return .clockwiseFast

/-- `driveLEDs` of `app.c`. -/
def driveLEDs (msg : Message_t) : Prog Unit := do
  if msg.buttonState = .GPIO_PIN_SET
      ∨ msg.rotation.toInt ≤ gyroRotationRate.counterClockwiseSlow.toInt then
    HAL_GPIO_WritePin GREEN_LED_PORT GREEN_LED_PIN .GPIO_PIN_SET
  else
    HAL_GPIO_WritePin GREEN_LED_PORT GREEN_LED_PIN .GPIO_PIN_RESET
  if msg.buttonState = .GPIO_PIN_SET
      ∧ msg.rotation.toInt > gyroRotationRate.counterClockwiseSlow.toInt then
    HAL_GPIO_WritePin RED_LED_PORT RED_LED_PIN .GPIO_PIN_SET
  else
    HAL_GPIO_WritePin RED_LED_PORT RED_LED_PIN .GPIO_PIN_RESET

/-! ## `app.c`: static variables -/

/-- The file-scope variables of `app.c` that the code reads or writes. -/
structure Statics where
  appMessage : Message_t
  appTimerID : Nat
  appTimerStatus : osStatus_t
  gyroInputSemaphorID : Nat
  buttonEventFlagID : Nat
  ledInfoMsgQueueID : Nat
  gyroInputTask : Nat
  buttonInputTask : Nat
  ledOutputTask : Nat
  deriving DecidableEq

/-- The statics at program start: C zero-initialises them (`GPIO_PIN_RESET`,
`nearlyZero` and `osOK` are the enumerators of value 0, the handles are `NULL`). -/
def Statics.zero : Statics :=
  { appMessage := { buttonState := .GPIO_PIN_RESET, rotation := .nearlyZero }
    appTimerID := NULL
    appTimerStatus := .osOK
    gyroInputSemaphorID := NULL
    buttonEventFlagID := NULL
    ledInfoMsgQueueID := NULL
    gyroInputTask := NULL
    buttonInputTask := NULL
    ledOutputTask := NULL }

/-! ## `app.c`: callback, tasks, initialisation, interrupt handler -/

/-- `appTimerCallback` of `app.c`. -/
def appTimerCallback (S : Statics) : Prog Unit := do
  let semaphoreStatus ← osSemaphoreRelease S.gyroInputSemaphorID
  match semaphoreStatus with
  | .osErrorResource | .osErrorParameter => Prog.spin
  | _ => pure ()

/-- One pass through the body of the `while(1)` of `gyroInput`. -/
def gyroInput_iteration (S : Statics) : Prog Statics := do
  let semaphoreStatus ← osSemaphoreAcquire S.gyroInputSemaphorID osWaitForever
  match semaphoreStatus with
  | .osErrorTimeout | .osErrorResource | .osErrorParameter => Prog.spin
  | _ => pure ()
  let gyroRate ← getGyroRateOfRotation
  let S := { S with appMessage := { S.appMessage with rotation := gyroRate } }
  let gyroMessagePutStatus ←
    osMessageQueuePut S.ledInfoMsgQueueID S.appMessage DEFAULT_MSG_PRIORITY osWaitForever
  match gyroMessagePutStatus with
  | .osErrorTimeout | .osErrorResource | .osErrorParameter => Prog.spin
  | _ => pure ()
  return S

/-- `sampleUserButton` of `app.c`. -/
def sampleUserButton (S : Statics) : Prog Statics := do
  let state ← HAL_GPIO_ReadPin BUTTON_PORT BUTTON_PIN
  return { S with appMessage := { S.appMessage with buttonState := state } }

/-- One pass through the body of the `while(1)` of `buttonInput`.  The `switch`
compares the 32-bit flags word with the four listed error codes. -/
def buttonInput_iteration (S : Statics) : Prog Statics := do
  let flags ← osEventFlagsWait S.buttonEventFlagID BUTTON_EVENT_FLAG osFlagsWaitAll osWaitForever
  if flags = osFlagsErrorUnknown ∨ flags = osFlagsErrorTimeout
      ∨ flags = osFlagsErrorResource ∨ flags = osFlagsErrorParameter then
    Prog.spin
  else
    pure ()
  let S ← sampleUserButton S
  let buttonMessagePutStatus ←
    osMessageQueuePut S.ledInfoMsgQueueID S.appMessage DEFAULT_MSG_PRIORITY osWaitForever
  match buttonMessagePutStatus with
  | .osErrorTimeout | .osErrorResource | .osErrorParameter => Prog.spin
  | _ => pure ()
  return S

/-- One pass through the body of the `while(1)` of `ledOutput`; the state carried
from pass to pass is the local buffer `ledOutputMessage`. -/
def ledOutput_iteration (S : Statics) (ledOutputMessage : Message_t) : Prog Message_t := do
  let (messageStatus, ledOutputMessage) ←
    osMessageQueueGet S.ledInfoMsgQueueID ledOutputMessage osWaitForever
  match messageStatus with
  | .osErrorTimeout | .osErrorResource | .osErrorParameter => Prog.spin
  | _ => driveLEDs ledOutputMessage
  return ledOutputMessage

/-- `appInit` of `app.c`. -/
def appInit (S : Statics) : Prog Statics := do
  let appTimerID ← osTimerNew .appTimerCallback .osTimerPeriodic
  let S := { S with appTimerID := appTimerID }
  if S.appTimerID = NULL then Prog.spin else pure ()
  let appTimerStatus ← osTimerStart S.appTimerID APP_TIMER_TICKS_100MS
  let S := { S with appTimerStatus := appTimerStatus }
  if S.appTimerStatus ≠ .osOK then Prog.spin else pure ()
  let gyroInputSemaphorID ← osSemaphoreNew MAKE_BINARY_SEMAPHORE SEMAPHORE_ONE_INIT_TOKEN
  let S := { S with gyroInputSemaphorID := gyroInputSemaphorID }
  if S.gyroInputSemaphorID = NULL then Prog.spin else pure ()
  let buttonEventFlagID ← osEventFlagsNew
  let S := { S with buttonEventFlagID := buttonEventFlagID }
  if S.buttonEventFlagID = NULL then Prog.spin else pure ()
  let ledInfoMsgQueueID ← osMessageQueueNew MAX_MSG_COUNT
  let S := { S with ledInfoMsgQueueID := ledInfoMsgQueueID }
  if S.ledInfoMsgQueueID = NULL then Prog.spin else pure ()
  let gyroInputTask ← osThreadNew .gyroInput
  let S := { S with gyroInputTask := gyroInputTask }
  if S.gyroInputTask = NULL then Prog.spin else pure ()
  let buttonInputTask ← osThreadNew .buttonInput
  let S := { S with buttonInputTask := buttonInputTask }
  if S.buttonInputTask = NULL then Prog.spin else pure ()
  let ledOutputTask ← osThreadNew .ledOutput
  let S := { S with ledOutputTask := ledOutputTask }
  if S.ledOutputTask = NULL then Prog.spin else pure ()
  return S

/-- `EXTI0_IRQHandler` of `app.c`; the value `osEventFlagsSet` returns is dropped. -/
def EXTI0_IRQHandler (S : Statics) : Prog Unit := do
  HAL_NVIC_DisableIRQ BUTTON_IRQn
  let _ ← osEventFlagsSet S.buttonEventFlagID BUTTON_EVENT_FLAG
  __HAL_GPIO_EXTI_CLEAR_IT BUTTON_PIN
  HAL_NVIC_EnableIRQ BUTTON_IRQn

/-! ## The `while(1)` loops of the three tasks -/

/-- Where a task loop stands after some passes: back at the head of its
`while(1)` with its state, or in a `while(1){}` for ever. -/
inductive LoopOutcome (σ : Type) where
  | atHead (s : σ)
  | halted
  deriving DecidableEq

/-- At most `passes` passes through a `while(1)` whose body is `body`, the first
call being number `n`: where the loop stands and the calls made.  A pass that
ends in `while(1){}` ends the run: no later pass is started. -/
def runLoop {σ : Type} (body : σ → Prog σ) (env : Env) :
    (passes : Nat) → σ → Nat → LoopOutcome σ × List Call
  | 0, s, _ => (.atHead s, [])
  | passes + 1, s, n =>
    match (body s).run env n with
    | (.halted, calls) => (.halted, calls)
    | (.returned s', calls) =>
      let r := runLoop body env passes s' (n + calls.length)
      (r.1, calls ++ r.2)

/-- The task `gyroInput` of `app.c`, run for at most `passes` passes. -/
def gyroInput (env : Env) (passes : Nat) (S : Statics) (n : Nat) :
    LoopOutcome Statics × List Call :=
  runLoop gyroInput_iteration env passes S n

/-- The task `buttonInput` of `app.c`, run for at most `passes` passes. -/
def buttonInput (env : Env) (passes : Nat) (S : Statics) (n : Nat) :
    LoopOutcome Statics × List Call :=
  runLoop buttonInput_iteration env passes S n

/-- The task `ledOutput` of `app.c`, run for at most `passes` passes from the
buffer contents `ledOutputMessage`. -/
def ledOutput (env : Env) (passes : Nat) (S : Statics) (ledOutputMessage : Message_t)
    (n : Nat) : LoopOutcome Message_t × List Call :=
  runLoop (ledOutput_iteration S) env passes ledOutputMessage n

/-! ## Concrete environments -/

/-- One answer for every kind of call: the environment built from a list of
answers gives the `n`-th call the part of the `n`-th answer that fits it. -/
structure Answer where
  handle : Nat
  status : osStatus_t
  flags : Nat
  velocity : Int
  pin : GPIO_PinState
  msg : Message_t
  deriving DecidableEq

/-- The part of an answer that fits the call. -/
def Answer.resp (a : Answer) : (c : Call) → Resp c
  | .osTimerNew _ _ => a.handle
  | .osTimerStart _ _ => a.status
  | .osSemaphoreNew _ _ => a.handle
  | .osEventFlagsNew => a.handle
  | .osMessageQueueNew _ => a.handle
  | .osThreadNew _ => a.handle
  | .osSemaphoreRelease _ => a.status
  | .osSemaphoreAcquire _ _ => a.status
  | .osEventFlagsWait _ _ _ _ => a.flags
  | .osEventFlagsSet _ _ => a.flags
  | .osMessageQueuePut _ _ _ _ => a.status
  | .osMessageQueueGet _ _ _ => (a.status, a.msg)
  | .Gyro_Get_Velocity => a.velocity
  | .HAL_GPIO_ReadPin _ _ => a.pin
  | .HAL_GPIO_WritePin _ _ _ => ()
  | .HAL_NVIC_DisableIRQ _ => ()
  | .HAL_NVIC_EnableIRQ _ => ()
  | .__HAL_GPIO_EXTI_CLEAR_IT _ => ()

/-- The answer of a kernel and board where everything succeeds: handle 1, `osOK`,
the button flag, velocity 0, button pressed, a message (pressed, nearlyZero). -/
def Answer.ok : Answer :=
  { handle := 1, status := .osOK, flags := BUTTON_EVENT_FLAG, velocity := 0,
    pin := .GPIO_PIN_SET, msg := { buttonState := .GPIO_PIN_SET, rotation := .nearlyZero } }

/-- The environment that gives the listed answers to the first calls and
`Answer.ok` to every later one. -/
def envOf (answers : List Answer) : Env := fun n c => (answers.getD n Answer.ok).resp c

/-! ## Vocabulary of the statements -/

/-- The statuses the `switch` after an acquire, an enqueue or a dequeue lists
(`osErrorTimeout`, `osErrorResource`, `osErrorParameter`). -/
def listedError (s : osStatus_t) : Bool :=
  s = .osErrorTimeout || s = .osErrorResource || s = .osErrorParameter

/-- Modelled from the spec: the statuses the dequeue call returns (the kernel's
`osMessageQueueGet` is not among the source files): success, or one of the
primitive failures sections 4.3 and 7 name, "timeout, resource, parameter
error". -/
def dequeueReturns (s : osStatus_t) : Bool :=
  s = .osOK || s = .osErrorTimeout || s = .osErrorResource || s = .osErrorParameter

/-- The statuses the `switch` of `appTimerCallback` lists. -/
def listedReleaseError (s : osStatus_t) : Bool :=
  s = .osErrorResource || s = .osErrorParameter

/-- The flags values the `switch` of `buttonInput` lists. -/
def listedFlagsError (flags : Nat) : Bool :=
  flags = osFlagsErrorUnknown || flags = osFlagsErrorTimeout
    || flags = osFlagsErrorResource || flags = osFlagsErrorParameter

/-- A flags return value is an error code when bit 31 (`osFlagsError`) is set. -/
def flagsIsError (flags : Nat) : Bool := osFlagsError ≤ flags % 2 ^ 32

/-- The calls that can block their caller: acquire, flags wait, enqueue, dequeue. -/
def Call.isBlocking : Call → Bool
  | .osSemaphoreAcquire _ _ => true
  | .osEventFlagsWait _ _ _ _ => true
  | .osMessageQueuePut _ _ _ _ => true
  | .osMessageQueueGet _ _ _ => true
  | _ => false

/-- The calls that write a pin: what the actuator `driveLEDs` does. -/
def Call.isPinWrite : Call → Bool
  | .HAL_GPIO_WritePin _ _ _ => true
  | _ => false

/-- In a list of calls, `a` is made, and made before `b` is. -/
def precedes (calls : List Call) (a b : Call) : Bool :=
  calls.indexOf a < calls.indexOf b && calls.indexOf b < calls.length

/-- The five-band table of section 4.1 of the specification (`classify`), written
from its five lines. -/
def classify (v : Int) : gyroRotationRate :=
  if v ≤ -15000 then .counterClockwiseFast
  else if -15000 < v ∧ v ≤ -2000 then .counterClockwiseSlow
  else if -2000 < v ∧ v < 2000 then .nearlyZero
  else if 2000 ≤ v ∧ v < 15000 then .clockwiseSlow
  else .clockwiseFast

/-- The position of the first `true`. -/
def firstTrue : List Bool → Option Nat
  | [] => none
  | true :: _ => some 0
  | false :: bs => (firstTrue bs).map (· + 1)

/-- What the eight construction calls of `appInit` return under an environment,
the first of them being call number `n`. -/
structure InitResults where
  timer : Nat
  start : osStatus_t
  semaphore : Nat
  eventFlags : Nat
  queue : Nat
  gyroTask : Nat
  buttonTask : Nat
  ledTask : Nat
  deriving DecidableEq

def initResults (env : Env) (n : Nat) : InitResults :=
  { timer := env n (.osTimerNew .appTimerCallback .osTimerPeriodic)
    start := env (n + 1)
      (.osTimerStart (env n (.osTimerNew .appTimerCallback .osTimerPeriodic))
        APP_TIMER_TICKS_100MS)
    semaphore := env (n + 2) (.osSemaphoreNew MAKE_BINARY_SEMAPHORE SEMAPHORE_ONE_INIT_TOKEN)
    eventFlags := env (n + 3) .osEventFlagsNew
    queue := env (n + 4) (.osMessageQueueNew MAX_MSG_COUNT)
    gyroTask := env (n + 5) (.osThreadNew .gyroInput)
    buttonTask := env (n + 6) (.osThreadNew .buttonInput)
    ledTask := env (n + 7) (.osThreadNew .ledOutput) }

/-- The eight construction steps, in the order of the text of `appInit`. -/
def InitResults.steps (r : InitResults) : List Call :=
  [ .osTimerNew .appTimerCallback .osTimerPeriodic,
    .osTimerStart r.timer APP_TIMER_TICKS_100MS,
    .osSemaphoreNew MAKE_BINARY_SEMAPHORE SEMAPHORE_ONE_INIT_TOKEN,
    .osEventFlagsNew,
    .osMessageQueueNew MAX_MSG_COUNT,
    .osThreadNew .gyroInput,
    .osThreadNew .buttonInput,
    .osThreadNew .ledOutput ]

/-- Which construction steps fail: a null handle, or a timer start that is not `osOK`. -/
def InitResults.failures (r : InitResults) : List Bool :=
  [ r.timer = NULL, r.start ≠ .osOK, r.semaphore = NULL, r.eventFlags = NULL,
    r.queue = NULL, r.gyroTask = NULL, r.buttonTask = NULL, r.ledTask = NULL ]

/-- The statics after an `appInit` whose steps all succeeded. -/
def InitResults.store (r : InitResults) (S : Statics) : Statics :=
  { S with
    appTimerID := r.timer
    appTimerStatus := r.start
    gyroInputSemaphorID := r.semaphore
    buttonEventFlagID := r.eventFlags
    ledInfoMsgQueueID := r.queue
    gyroInputTask := r.gyroTask
    buttonInputTask := r.buttonTask
    ledOutputTask := r.ledTask }

/-! ## The timer, the semaphore and the sensor task together -/

/-- Modelled from the spec: the kernel's semaphore (`osSemaphoreNew`,
`osSemaphoreRelease`, `osSemaphoreAcquire` are not among the source files).
Glossary: "a primitive holding a bounded count of available permits; release
increments (up to capacity), acquire blocks until a permit is available then
decrements"; section 4.2: a release fails when "the token is already at
capacity or the primitive is invalid". -/
structure Semaphore where
  handle : Nat
  max_count : Nat
  count : Nat
  deriving DecidableEq

/-- Modelled from the spec: `osSemaphoreNew`, see `Semaphore`; section 3: the token
is created with its capacity and its pre-loaded permits. -/
def Semaphore.new (handle max_count initial_count : Nat) : Semaphore :=
  { handle := handle, max_count := max_count, count := initial_count }

/-- Modelled from the spec: `osSemaphoreRelease` on the kernel's semaphore, see `Semaphore`. -/
def Semaphore.release (sem : Semaphore) (semaphore_id : Nat) : osStatus_t × Semaphore :=
  if semaphore_id ≠ sem.handle then (.osErrorParameter, sem)
  else if sem.count < sem.max_count then (.osOK, { sem with count := sem.count + 1 })
  else (.osErrorResource, sem)

/-- Modelled from the spec: `osSemaphoreAcquire` with `osWaitForever` on the
kernel's semaphore, see `Semaphore`; `none` when the caller stays blocked. -/
def Semaphore.acquire (sem : Semaphore) (semaphore_id : Nat) : Option (osStatus_t × Semaphore) :=
  if semaphore_id ≠ sem.handle then some (.osErrorParameter, sem)
  else if 0 < sem.count then some (.osOK, { sem with count := sem.count - 1 })
  else none

/-- A program that is in `while(1){}`. -/
def Prog.isSpin {α : Type} : Prog α → Bool
  | .spin => true
  | _ => false

/-- The state of the timer, the semaphore and the task `gyroInput`: the statics,
the semaphore, what is left of the current pass of `gyroInput`, the calls
`gyroInput` has completed, how often the timer has fired, and whether
`appTimerCallback` is in its `while(1){}`. -/
structure System where
  S : Statics
  semaphore : Semaphore
  gyro : Prog Statics
  gyroCalls : List Call
  timerFirings : Nat
  timerHalted : Bool

/-- What can happen next: the timer fires (the kernel runs `appTimerCallback`), or
`gyroInput` runs up to the return of its next call, the gyro driver or the queue
answering with the given velocity or status. -/
inductive Event where
  | timerFires
  | gyroRuns (rawVelocity : Int) (putStatus : osStatus_t)
  deriving DecidableEq

/-- The task `gyroInput` goes on with `p`; a pass that returned starts the next pass. -/
def System.continue (sys : System) (p : Prog Statics) : System :=
  match p with
  | .ret S => { sys with S := S, gyro := gyroInput_iteration S }
  | p => { sys with gyro := p }

/-- Modelled from the spec: the kernel's timer service (not among the source
files) runs the callback on every expiry; section 4.2: "side effect per firing:
release one permit".  Here the firing runs `appTimerCallback` of `app.c` against
the semaphore; nothing fires once the callback is in its `while(1){}`. -/
def System.timerFires (sys : System) : System :=
  if sys.timerHalted then sys
  else
    match appTimerCallback sys.S with
    | .call (.osSemaphoreRelease semaphore_id) k =>
      let r := sys.semaphore.release semaphore_id
      match k r.1 with
      | .ret _ => { sys with semaphore := r.2, timerFirings := sys.timerFirings + 1 }
      | _ =>
        { sys with semaphore := r.2, timerFirings := sys.timerFirings + 1, timerHalted := true }
    | _ => sys

/-- Modelled from the spec: the kernel's scheduler (not among the source files)
lets the task `gyroInput` of `app.c` run up to the return of its pending call;
an acquire with no permit available leaves the task blocked (glossary: "acquire
blocks until a permit is available"). -/
def System.gyroRuns (sys : System) (rawVelocity : Int) (putStatus : osStatus_t) : System :=
  match sys.gyro with
  | .call (.osSemaphoreAcquire semaphore_id timeout) k =>
    match sys.semaphore.acquire semaphore_id with
    | some r =>
      System.continue
        { sys with
          semaphore := r.2
          gyroCalls := sys.gyroCalls ++ [.osSemaphoreAcquire semaphore_id timeout] }
        (k r.1)
    | none => sys
  | .call .Gyro_Get_Velocity k =>
    System.continue { sys with gyroCalls := sys.gyroCalls ++ [.Gyro_Get_Velocity] }
      (k rawVelocity)
  | .call (.osMessageQueuePut mq_id msg msg_prio timeout) k =>
    System.continue
      { sys with gyroCalls := sys.gyroCalls ++ [.osMessageQueuePut mq_id msg msg_prio timeout] }
      (k putStatus)
  | _ => sys

/-- One event. -/
def System.step (sys : System) : Event → System
  | .timerFires => sys.timerFires
  | .gyroRuns rawVelocity putStatus => sys.gyroRuns rawVelocity putStatus

/-- A sequence of events. -/
def System.run (sys : System) (events : List Event) : System :=
  events.foldl System.step sys

/-- The task `gyroInput` is blocked waiting for the token. -/
def System.gyroBlocked (sys : System) : Bool :=
  match sys.gyro with
  | .call (.osSemaphoreAcquire semaphore_id _) _ => (sys.semaphore.acquire semaphore_id).isNone
  | _ => false

/-- A context is in a `while(1){}`. -/
def System.faulted (sys : System) : Bool :=
  sys.timerHalted || sys.gyro.isSpin

/-- The number of sensor reads performed so far. -/
def System.sensorReads (sys : System) : Nat :=
  sys.gyroCalls.count .Gyro_Get_Velocity

/-- The arguments of the `osSemaphoreNew` call among the calls of `appInit`. -/
def semaphoreNewArgs : List Call → Option (Nat × Nat)
  | [] => none
  | .osSemaphoreNew max_count initial_count :: _ => some (max_count, initial_count)
  | _ :: calls => semaphoreNewArgs calls

/-- The system after a successful `appInit` run from the zero-initialised statics
(`none` when `appInit` halts): the semaphore has the capacity and the initial
count `appInit` passed to `osSemaphoreNew` and the handle that call returned,
`gyroInput` is at the head of its loop, and the timer has not fired yet. -/
def System.boot (env : Env) : Option System :=
  match (appInit Statics.zero).run env 0 with
  | (.returned S, calls) =>
    (semaphoreNewArgs calls).map fun args =>
      { S := S
        semaphore := Semaphore.new S.gyroInputSemaphorID args.1 args.2
        gyro := gyroInput_iteration S
        gyroCalls := []
        timerFirings := 0
        timerHalted := false }
  | (.halted, _) => none

/-- What is left of a pass of `gyroInput` once the sensor has been read as `v`:
the enqueue and the `switch` on its status. -/
def gyroInput_afterRead (S : Statics) (v : Int) : Prog Statics :=
  .call
    (.osMessageQueuePut S.ledInfoMsgQueueID { S.appMessage with rotation := classify v }
      DEFAULT_MSG_PRIORITY osWaitForever)
    (fun p =>
      if listedError p then .spin
      else .ret { S with appMessage := { S.appMessage with rotation := classify v } })

/-- What is left of a pass of `gyroInput` once the token has been acquired: the
sensor read, then `gyroInput_afterRead`. -/
def gyroInput_afterAcquire (S : Statics) : Prog Statics :=
  .call .Gyro_Get_Velocity (fun v => gyroInput_afterRead S v)

/-- The relation between sensor reads, permits and timer firings at each point of
`gyroInput`, while no context is in `while(1){}`: reads + permits = firings + 1
at the head of the loop and after a read, reads + permits = firings between
the acquire and the read. -/
def System.cadence (sys : System) : Prop :=
  sys.timerHalted = true ∨
    (sys.semaphore.handle = sys.S.gyroInputSemaphorID ∧ sys.semaphore.max_count = 1 ∧
      (sys.gyro = .spin ∨
        (sys.gyro = gyroInput_iteration sys.S ∧
          sys.sensorReads + sys.semaphore.count = sys.timerFirings + 1) ∨
        (sys.gyro = gyroInput_afterAcquire sys.S ∧
          sys.sensorReads + sys.semaphore.count = sys.timerFirings) ∨
        (∃ v, sys.gyro = gyroInput_afterRead sys.S v ∧
          sys.sensorReads + sys.semaphore.count = sys.timerFirings + 1)))

/-- What is observed of a system state: (timer firings, sensor reads, `gyroInput`
blocked waiting for the token, some context in `while(1){}`). -/
def System.observe (sys : System) : Nat × Nat × Bool × Bool :=
  (sys.timerFirings, sys.sensorReads, sys.gyroBlocked, sys.faulted)

/-! # Theorems -/

/-! ## Rotation classifier -/

/-- The five-band table read as a function of the raw velocity. -/
theorem band_table (v : Int) (band : gyroRotationRate)
    (h : band = (if v ≤ -15000 then gyroRotationRate.counterClockwiseFast
      else if v ≤ -2000 then .counterClockwiseSlow
      else if v < 2000 then .nearlyZero
      else if v < 15000 then .clockwiseSlow else .clockwiseFast)) :
    (band = .counterClockwiseFast ↔ v ≤ -15000) ∧
    (band = .counterClockwiseSlow ↔ -15000 < v ∧ v ≤ -2000) ∧
    (band = .nearlyZero ↔ -2000 < v ∧ v < 2000) ∧
    (band = .clockwiseSlow ↔ 2000 ≤ v ∧ v < 15000) ∧
    (band = .clockwiseFast ↔ 15000 ≤ v) := by
  subst h
  split_ifs <;> simp <;> omega

/-- C1: whatever raw velocity `Gyro_Get_Velocity` returns, `getGyroRateOfRotation`
makes that one call and returns the band of the five-band table:
counterClockwiseFast iff v ≤ -15000, counterClockwiseSlow iff -15000 < v ≤ -2000,
nearlyZero iff -2000 < v < 2000, clockwiseSlow iff 2000 ≤ v < 15000,
clockwiseFast iff v ≥ 15000; so -2000 gives counterClockwiseSlow and 2000 gives
clockwiseSlow. -/
theorem getGyroRateOfRotation_five_bands (env : Env) (n : Nat) :
    ∃ band : gyroRotationRate,
      getGyroRateOfRotation.run env n = (.returned band, [.Gyro_Get_Velocity]) ∧
      (band = .counterClockwiseFast ↔ (env n .Gyro_Get_Velocity : Int) ≤ -15000) ∧
      (band = .counterClockwiseSlow ↔
        -15000 < (env n .Gyro_Get_Velocity : Int) ∧ (env n .Gyro_Get_Velocity : Int) ≤ -2000) ∧
      (band = .nearlyZero ↔
        -2000 < (env n .Gyro_Get_Velocity : Int) ∧ (env n .Gyro_Get_Velocity : Int) < 2000) ∧
      (band = .clockwiseSlow ↔
        2000 ≤ (env n .Gyro_Get_Velocity : Int) ∧ (env n .Gyro_Get_Velocity : Int) < 15000) ∧
      (band = .clockwiseFast ↔ 15000 ≤ (env n .Gyro_Get_Velocity : Int)) ∧
      ((env n .Gyro_Get_Velocity : Int) = -2000 → band = .counterClockwiseSlow) ∧
      ((env n .Gyro_Get_Velocity : Int) = 2000 → band = .clockwiseSlow) := by
  obtain ⟨h1, h2, h3, h4, h5⟩ := band_table (env n .Gyro_Get_Velocity) _ rfl
  refine ⟨_, ?_, h1, h2, h3, h4, h5, fun h => h2.2 (by rw [h]; decide),
    fun h => h4.2 (by rw [h]; decide)⟩
  simp only [getGyroRateOfRotation, Gyro_Get_Velocity, bind, Prog.bind, Prog.run, pure,
    gyroRotationRate.toInt]
  split_ifs <;> simp [Prog.run]

/-! ## Actuator -/

/-- The calls of `driveLEDs`: a write of the green pin, then a write of the red pin. -/
theorem driveLEDs_run (msg : Message_t) (env : Env) (n : Nat) :
    (driveLEDs msg).run env n =
      (.returned (),
        [ .HAL_GPIO_WritePin GREEN_LED_PORT GREEN_LED_PIN
            (if msg.buttonState = .GPIO_PIN_SET
                ∨ msg.rotation.toInt ≤ gyroRotationRate.counterClockwiseSlow.toInt
              then .GPIO_PIN_SET else .GPIO_PIN_RESET),
          .HAL_GPIO_WritePin RED_LED_PORT RED_LED_PIN
            (if msg.buttonState = .GPIO_PIN_SET
                ∧ msg.rotation.toInt > gyroRotationRate.counterClockwiseSlow.toInt
              then .GPIO_PIN_SET else .GPIO_PIN_RESET) ]) := by
  simp only [driveLEDs, HAL_GPIO_WritePin, bind, Prog.bind]
  split_ifs <;> simp [Prog.run, Prog.bind]

/-- C2: for every message, `driveLEDs` makes exactly two calls, a write of the
green pin followed by a write of the red pin; the green value is SET iff the
button state is GPIO_PIN_SET or the rotation is at most counterClockwiseSlow
(that is counterClockwiseSlow or counterClockwiseFast), and the red value is SET
iff the button state is GPIO_PIN_SET and the rotation is above
counterClockwiseSlow (that is nearlyZero, clockwiseSlow or clockwiseFast). -/
theorem driveLEDs_two_writes (msg : Message_t) (env : Env) (n : Nat) :
    ∃ green red : GPIO_PinState,
      (driveLEDs msg).run env n =
        (.returned (),
          [ .HAL_GPIO_WritePin GREEN_LED_PORT GREEN_LED_PIN green,
            .HAL_GPIO_WritePin RED_LED_PORT RED_LED_PIN red ]) ∧
      (green = .GPIO_PIN_SET ↔
        msg.buttonState = .GPIO_PIN_SET
          ∨ msg.rotation.toInt ≤ gyroRotationRate.counterClockwiseSlow.toInt) ∧
      (red = .GPIO_PIN_SET ↔
        msg.buttonState = .GPIO_PIN_SET
          ∧ msg.rotation.toInt > gyroRotationRate.counterClockwiseSlow.toInt) ∧
      (msg.rotation.toInt ≤ gyroRotationRate.counterClockwiseSlow.toInt ↔
        msg.rotation = .counterClockwiseSlow ∨ msg.rotation = .counterClockwiseFast) ∧
      (msg.rotation.toInt > gyroRotationRate.counterClockwiseSlow.toInt ↔
        msg.rotation = .nearlyZero ∨ msg.rotation = .clockwiseSlow
          ∨ msg.rotation = .clockwiseFast) ∧
      (green = .GPIO_PIN_SET ∨ green = .GPIO_PIN_RESET) ∧
      (red = .GPIO_PIN_SET ∨ red = .GPIO_PIN_RESET) := by
  refine ⟨_, _, driveLEDs_run msg env n, ?_, ?_, ?_, ?_, ?_, ?_⟩
  · split_ifs <;> simp_all
  · split_ifs <;> simp_all
  · cases msg.rotation <;> simp [gyroRotationRate.toInt]
  · cases msg.rotation <;> simp [gyroRotationRate.toInt]
  · split_ifs <;> simp
  · split_ifs <;> simp

/-- C3, the row that fails: for (pressed, nearlyZero) `driveLEDs` writes green SET
and red SET, not green RESET and red SET. -/
theorem driveLEDs_pressed_nearlyZero_green_on :
    (driveLEDs { buttonState := .GPIO_PIN_SET, rotation := .nearlyZero }).run (envOf []) 0 =
        (.returned (),
          [ .HAL_GPIO_WritePin GREEN_LED_PORT GREEN_LED_PIN .GPIO_PIN_SET,
            .HAL_GPIO_WritePin RED_LED_PORT RED_LED_PIN .GPIO_PIN_SET ]) ∧
      (driveLEDs { buttonState := .GPIO_PIN_SET, rotation := .nearlyZero }).run (envOf []) 0 ≠
        (.returned (),
          [ .HAL_GPIO_WritePin GREEN_LED_PORT GREEN_LED_PIN .GPIO_PIN_RESET,
            .HAL_GPIO_WritePin RED_LED_PORT RED_LED_PIN .GPIO_PIN_SET ]) := by
  decide

/-- C3 as amended: (pressed, counterClockwiseFast) gives green SET, red RESET;
(pressed, nearlyZero) gives green SET, red SET; (released, clockwiseSlow) gives
green RESET, red RESET; (pressed, counterClockwiseSlow) gives green SET, red
RESET; (released, clockwiseFast) gives green RESET, red RESET. -/
theorem driveLEDs_truth_table (env : Env) (n : Nat) :
    (driveLEDs { buttonState := .GPIO_PIN_SET, rotation := .counterClockwiseFast }).run env n =
        (.returned (),
          [ .HAL_GPIO_WritePin GREEN_LED_PORT GREEN_LED_PIN .GPIO_PIN_SET,
            .HAL_GPIO_WritePin RED_LED_PORT RED_LED_PIN .GPIO_PIN_RESET ]) ∧
      (driveLEDs { buttonState := .GPIO_PIN_SET, rotation := .nearlyZero }).run env n =
        (.returned (),
          [ .HAL_GPIO_WritePin GREEN_LED_PORT GREEN_LED_PIN .GPIO_PIN_SET,
            .HAL_GPIO_WritePin RED_LED_PORT RED_LED_PIN .GPIO_PIN_SET ]) ∧
      (driveLEDs { buttonState := .GPIO_PIN_RESET, rotation := .clockwiseSlow }).run env n =
        (.returned (),
          [ .HAL_GPIO_WritePin GREEN_LED_PORT GREEN_LED_PIN .GPIO_PIN_RESET,
            .HAL_GPIO_WritePin RED_LED_PORT RED_LED_PIN .GPIO_PIN_RESET ]) ∧
      (driveLEDs { buttonState := .GPIO_PIN_SET, rotation := .counterClockwiseSlow }).run env n =
        (.returned (),
          [ .HAL_GPIO_WritePin GREEN_LED_PORT GREEN_LED_PIN .GPIO_PIN_SET,
            .HAL_GPIO_WritePin RED_LED_PORT RED_LED_PIN .GPIO_PIN_RESET ]) ∧
      (driveLEDs { buttonState := .GPIO_PIN_RESET, rotation := .clockwiseFast }).run env n =
        (.returned (),
          [ .HAL_GPIO_WritePin GREEN_LED_PORT GREEN_LED_PIN .GPIO_PIN_RESET,
            .HAL_GPIO_WritePin RED_LED_PORT RED_LED_PIN .GPIO_PIN_RESET ]) := by
  simp [driveLEDs_run, gyroRotationRate.toInt]

/-! ## Interrupt handler -/

/-- The run of `EXTI0_IRQHandler`. -/
theorem EXTI0_IRQHandler_run (S : Statics) (env : Env) (n : Nat) :
    (EXTI0_IRQHandler S).run env n =
      (.returned (),
        [ .HAL_NVIC_DisableIRQ BUTTON_IRQn,
          .osEventFlagsSet S.buttonEventFlagID BUTTON_EVENT_FLAG,
          .__HAL_GPIO_EXTI_CLEAR_IT BUTTON_PIN,
          .HAL_NVIC_EnableIRQ BUTTON_IRQn ]) := by
  simp [EXTI0_IRQHandler, HAL_NVIC_DisableIRQ, osEventFlagsSet, __HAL_GPIO_EXTI_CLEAR_IT,
    HAL_NVIC_EnableIRQ, bind, Prog.bind, Prog.run]

/-- C7: for every value `osEventFlagsSet` returns, `EXTI0_IRQHandler` makes exactly
four calls, in this order, and then returns: disable the button interrupt line,
set BUTTON_EVENT_FLAG on the button event-flag group, clear the pending flag of
the button pin, enable the button interrupt line; none of the four is a call
that can block. -/
theorem EXTI0_IRQHandler_four_effects (S : Statics) (env : Env) (n : Nat) :
    (EXTI0_IRQHandler S).run env n =
        (.returned (),
          [ .HAL_NVIC_DisableIRQ BUTTON_IRQn,
            .osEventFlagsSet S.buttonEventFlagID BUTTON_EVENT_FLAG,
            .__HAL_GPIO_EXTI_CLEAR_IT BUTTON_PIN,
            .HAL_NVIC_EnableIRQ BUTTON_IRQn ]) ∧
      ∀ c ∈ ((EXTI0_IRQHandler S).run env n).2, c.isBlocking = false := by
  refine ⟨EXTI0_IRQHandler_run S env n, ?_⟩
  rw [EXTI0_IRQHandler_run]
  simp [Call.isBlocking]

/-! ## Initialisation -/

/-- The run of `appInit` in terms of what the eight construction calls return. -/
theorem appInit_run (S : Statics) (env : Env) (n : Nat) :
    (appInit S).run env n =
      match firstTrue (initResults env n).failures with
      | some k => (.halted, (initResults env n).steps.take (k + 1))
      | none => (.returned ((initResults env n).store S), (initResults env n).steps) := by
  simp only [appInit, osTimerNew, osTimerStart, osSemaphoreNew, osEventFlagsNew,
    osMessageQueueNew, osThreadNew, bind, Prog.bind, pure, initResults, InitResults.failures,
    InitResults.steps, InitResults.store, Prog.run]
  by_cases h1 : (env n (.osTimerNew .appTimerCallback .osTimerPeriodic) : Nat) = NULL
  · simp [h1, firstTrue, Prog.bind, Prog.run]
  by_cases h2 : (env (n + 1) (.osTimerStart (env n (.osTimerNew .appTimerCallback .osTimerPeriodic))
      APP_TIMER_TICKS_100MS) : osStatus_t) = .osOK
  swap
  · simp [h1, h2, firstTrue, Prog.bind, Prog.run]
  by_cases h3 : (env (n + 2) (.osSemaphoreNew MAKE_BINARY_SEMAPHORE SEMAPHORE_ONE_INIT_TOKEN)
      : Nat) = NULL
  · simp [h1, h2, h3, firstTrue, Prog.bind, Prog.run]
  by_cases h4 : (env (n + 3) .osEventFlagsNew : Nat) = NULL
  · simp [h1, h2, h3, h4, firstTrue, Prog.bind, Prog.run]
  by_cases h5 : (env (n + 4) (.osMessageQueueNew MAX_MSG_COUNT) : Nat) = NULL
  · simp [h1, h2, h3, h4, h5, firstTrue, Prog.bind, Prog.run]
  by_cases h6 : (env (n + 5) (.osThreadNew .gyroInput) : Nat) = NULL
  · simp [h1, h2, h3, h4, h5, h6, firstTrue, Prog.bind, Prog.run]
  by_cases h7 : (env (n + 6) (.osThreadNew .buttonInput) : Nat) = NULL
  · simp [h1, h2, h3, h4, h5, h6, h7, firstTrue, Prog.bind, Prog.run]
  by_cases h8 : (env (n + 7) (.osThreadNew .ledOutput) : Nat) = NULL
  · simp [h1, h2, h3, h4, h5, h6, h7, h8, firstTrue, Prog.bind, Prog.run]
  · simp [h1, h2, h3, h4, h5, h6, h7, h8, firstTrue, Prog.bind, Prog.run]

/-- The position `firstTrue` finds is the first position that holds `true`. -/
theorem firstTrue_of_first (bs : List Bool) (k : Nat) (hk : bs[k]? = some true)
    (hlt : ∀ j, j < k → bs[j]? = some false) : firstTrue bs = some k := by
  induction bs generalizing k with
  | nil => simp at hk
  | cons b bs ih =>
    cases k with
    | zero =>
      simp only [List.getElem?_cons_zero, Option.some.injEq] at hk
      simp [hk, firstTrue]
    | succ k =>
      have h0 : b = false := by simpa using hlt 0 (Nat.succ_pos k)
      have hk' : bs[k]? = some true := by simpa using hk
      have hlt' : ∀ j, j < k → bs[j]? = some false := fun j hj => by
        simpa using hlt (j + 1) (Nat.succ_lt_succ hj)
      simp [h0, firstTrue, ih k hk' hlt']

/-- C6: whatever the construction calls return, `appInit` ends in `while(1){}` if
and only if a construction step fails (the timer, the semaphore, the event-flag
group, the queue or one of the three tasks comes back as a null handle, or the
timer start is not osOK); when step `k` is the first to fail, the calls made are
the steps up to and including step `k` and none of the later ones; when every
step succeeds, `appInit` returns after the eight calls (seven creations and the
timer start) with the returned handles stored. -/
theorem appInit_halts_iff_step_fails (S : Statics) (env : Env) (n : Nat) :
    (((appInit S).run env n).1 = .halted ↔
        ((initResults env n).timer = NULL ∨ (initResults env n).start ≠ .osOK
          ∨ (initResults env n).semaphore = NULL ∨ (initResults env n).eventFlags = NULL
          ∨ (initResults env n).queue = NULL ∨ (initResults env n).gyroTask = NULL
          ∨ (initResults env n).buttonTask = NULL ∨ (initResults env n).ledTask = NULL)) ∧
      (∀ k, (initResults env n).failures[k]? = some true →
        (∀ j, j < k → (initResults env n).failures[j]? = some false) →
        (appInit S).run env n = (.halted, (initResults env n).steps.take (k + 1))) ∧
      ((initResults env n).timer ≠ NULL ∧ (initResults env n).start = .osOK
          ∧ (initResults env n).semaphore ≠ NULL ∧ (initResults env n).eventFlags ≠ NULL
          ∧ (initResults env n).queue ≠ NULL ∧ (initResults env n).gyroTask ≠ NULL
          ∧ (initResults env n).buttonTask ≠ NULL ∧ (initResults env n).ledTask ≠ NULL →
        (appInit S).run env n =
          (.returned ((initResults env n).store S), (initResults env n).steps)) := by
  refine ⟨?_, ?_, ?_⟩
  · rw [appInit_run]
    generalize initResults env n = r
    simp only [InitResults.failures]
    by_cases h1 : r.timer = NULL
    · simp [h1, firstTrue]
    by_cases h2 : r.start = .osOK
    swap
    · simp [h1, h2, firstTrue]
    by_cases h3 : r.semaphore = NULL
    · simp [h1, h2, h3, firstTrue]
    by_cases h4 : r.eventFlags = NULL
    · simp [h1, h2, h3, h4, firstTrue]
    by_cases h5 : r.queue = NULL
    · simp [h1, h2, h3, h4, h5, firstTrue]
    by_cases h6 : r.gyroTask = NULL
    · simp [h1, h2, h3, h4, h5, h6, firstTrue]
    by_cases h7 : r.buttonTask = NULL
    · simp [h1, h2, h3, h4, h5, h6, h7, firstTrue]
    by_cases h8 : r.ledTask = NULL
    · simp [h1, h2, h3, h4, h5, h6, h7, h8, firstTrue]
    · simp [h1, h2, h3, h4, h5, h6, h7, h8, firstTrue]
  · intro k hk hlt
    rw [appInit_run, firstTrue_of_first _ k hk hlt]
  · rintro ⟨h1, h2, h3, h4, h5, h6, h7, h8⟩
    rw [appInit_run]
    simp [InitResults.failures, h1, h2, h3, h4, h5, h6, h7, h8, firstTrue]

/-- An instance of `appInit_halts_iff_step_fails`: the semaphore creation returns
a null handle, and `appInit` halts after its third call. -/
theorem appInit_halts_at_failed_semaphore :
    (appInit Statics.zero).run (envOf [Answer.ok, Answer.ok, { Answer.ok with handle := NULL }]) 0
      = (.halted,
          [ .osTimerNew .appTimerCallback .osTimerPeriodic,
            .osTimerStart 1 APP_TIMER_TICKS_100MS,
            .osSemaphoreNew MAKE_BINARY_SEMAPHORE SEMAPHORE_ONE_INIT_TOKEN ]) :=
  (appInit_halts_iff_step_fails Statics.zero
    (envOf [Answer.ok, Answer.ok, { Answer.ok with handle := NULL }]) 0).2.1 2
    (by decide) (by decide)

/-- An `appInit` that returns has made the eight construction calls and stored
handles that are not null. -/
theorem appInit_returned (S S' : Statics) (env : Env) (n : Nat) (calls : List Call)
    (h : (appInit S).run env n = (.returned S', calls)) :
    calls = (initResults env n).steps ∧ S' = (initResults env n).store S
      ∧ firstTrue (initResults env n).failures = none := by
  rw [appInit_run] at h
  cases hf : firstTrue (initResults env n).failures with
  | some k => simp [hf] at h
  | none =>
    simp only [hf, Prod.mk.injEq, Outcome.returned.injEq] at h
    exact ⟨h.2.symm, h.1.symm, rfl⟩

/-- When no construction step fails, no stored handle is null. -/
theorem handles_of_no_failure (r : InitResults) (h : firstTrue r.failures = none) :
    r.timer ≠ NULL ∧ r.start = .osOK ∧ r.semaphore ≠ NULL ∧ r.eventFlags ≠ NULL
      ∧ r.queue ≠ NULL ∧ r.gyroTask ≠ NULL ∧ r.buttonTask ≠ NULL ∧ r.ledTask ≠ NULL := by
  simp only [InitResults.failures] at h
  by_cases h1 : r.timer = NULL
  · simp [h1, firstTrue] at h
  by_cases h2 : r.start = .osOK
  swap
  · simp [h1, h2, firstTrue] at h
  by_cases h3 : r.semaphore = NULL
  · simp [h1, h2, h3, firstTrue] at h
  by_cases h4 : r.eventFlags = NULL
  · simp [h1, h2, h3, h4, firstTrue] at h
  by_cases h5 : r.queue = NULL
  · simp [h1, h2, h3, h4, h5, firstTrue] at h
  by_cases h6 : r.gyroTask = NULL
  · simp [h1, h2, h3, h4, h5, h6, firstTrue] at h
  by_cases h7 : r.buttonTask = NULL
  · simp [h1, h2, h3, h4, h5, h6, h7, firstTrue] at h
  by_cases h8 : r.ledTask = NULL
  · simp [h1, h2, h3, h4, h5, h6, h7, h8, firstTrue] at h
  · exact ⟨h1, h2, h3, h4, h5, h6, h7, h8⟩

/-- C10, the part that fails: in the run of `appInit` where every step succeeds,
the semaphore is not created before the timer is started; the timer start is
the second call and the semaphore creation the third. -/
theorem appInit_starts_timer_before_semaphore :
    ((appInit Statics.zero).run (envOf []) 0).1
        = .returned ((initResults (envOf []) 0).store Statics.zero) ∧
      precedes ((appInit Statics.zero).run (envOf []) 0).2
        (.osSemaphoreNew MAKE_BINARY_SEMAPHORE SEMAPHORE_ONE_INIT_TOKEN)
        (.osTimerStart 1 APP_TIMER_TICKS_100MS) = false ∧
      precedes ((appInit Statics.zero).run (envOf []) 0).2
        (.osTimerStart 1 APP_TIMER_TICKS_100MS)
        (.osSemaphoreNew MAKE_BINARY_SEMAPHORE SEMAPHORE_ONE_INIT_TOKEN) = true ∧
      ((appInit Statics.zero).run (envOf []) 0).2[1]? = some (.osTimerStart 1 APP_TIMER_TICKS_100MS) ∧
      ((appInit Statics.zero).run (envOf []) 0).2[2]?
        = some (.osSemaphoreNew MAKE_BINARY_SEMAPHORE SEMAPHORE_ONE_INIT_TOKEN) := by
  decide

/-- C10 as amended: in a run of `appInit` where every step succeeds, the timer is
created and then started before the semaphore is created, and the semaphore,
the event-flag group and the queue are each created, with a handle stored that
is not null, before any of the three tasks is created. -/
theorem appInit_creation_order (S S' : Statics) (env : Env) (n : Nat) (calls : List Call)
    (h : (appInit S).run env n = (.returned S', calls)) :
    precedes calls (.osTimerNew .appTimerCallback .osTimerPeriodic)
        (.osTimerStart S'.appTimerID APP_TIMER_TICKS_100MS) = true ∧
      precedes calls (.osTimerStart S'.appTimerID APP_TIMER_TICKS_100MS)
        (.osSemaphoreNew MAKE_BINARY_SEMAPHORE SEMAPHORE_ONE_INIT_TOKEN) = true ∧
      (∀ task ∈ [EntryPoint.gyroInput, .buttonInput, .ledOutput],
        precedes calls (.osSemaphoreNew MAKE_BINARY_SEMAPHORE SEMAPHORE_ONE_INIT_TOKEN)
            (.osThreadNew task) = true ∧
          precedes calls .osEventFlagsNew (.osThreadNew task) = true ∧
          precedes calls (.osMessageQueueNew MAX_MSG_COUNT) (.osThreadNew task) = true) ∧
      S'.gyroInputSemaphorID ≠ NULL ∧ S'.buttonEventFlagID ≠ NULL
        ∧ S'.ledInfoMsgQueueID ≠ NULL := by
  obtain ⟨hc, hS, hf⟩ := appInit_returned S S' env n calls h
  obtain ⟨-, -, h3, h4, h5, -, -, -⟩ := handles_of_no_failure _ hf
  subst hc hS
  refine ⟨?_, ?_, ?_, h3, h4, h5⟩
  · simp [precedes, InitResults.steps, InitResults.store, List.indexOf_cons]
  · simp [precedes, InitResults.steps, InitResults.store, List.indexOf_cons]
  · intro task htask
    simp only [List.mem_cons, List.mem_singleton, List.not_mem_nil, or_false] at htask
    rcases htask with rfl | rfl | rfl <;>
      simp [precedes, InitResults.steps, List.indexOf_cons]

/-- An instance of `appInit_creation_order`: the run where every call succeeds. -/
theorem appInit_creation_order_witness :
    precedes ((appInit Statics.zero).run (envOf []) 0).2
        (.osTimerNew .appTimerCallback .osTimerPeriodic)
        (.osTimerStart ((initResults (envOf []) 0).store Statics.zero).appTimerID
          APP_TIMER_TICKS_100MS) = true ∧
      precedes ((appInit Statics.zero).run (envOf []) 0).2
        (.osTimerStart ((initResults (envOf []) 0).store Statics.zero).appTimerID
          APP_TIMER_TICKS_100MS)
        (.osSemaphoreNew MAKE_BINARY_SEMAPHORE SEMAPHORE_ONE_INIT_TOKEN) = true ∧
      (∀ task ∈ [EntryPoint.gyroInput, .buttonInput, .ledOutput],
        precedes ((appInit Statics.zero).run (envOf []) 0).2
            (.osSemaphoreNew MAKE_BINARY_SEMAPHORE SEMAPHORE_ONE_INIT_TOKEN)
            (.osThreadNew task) = true ∧
          precedes ((appInit Statics.zero).run (envOf []) 0).2 .osEventFlagsNew
            (.osThreadNew task) = true ∧
          precedes ((appInit Statics.zero).run (envOf []) 0).2
            (.osMessageQueueNew MAX_MSG_COUNT) (.osThreadNew task) = true) ∧
      ((initResults (envOf []) 0).store Statics.zero).gyroInputSemaphorID ≠ NULL ∧
      ((initResults (envOf []) 0).store Statics.zero).buttonEventFlagID ≠ NULL ∧
      ((initResults (envOf []) 0).store Statics.zero).ledInfoMsgQueueID ≠ NULL :=
  appInit_creation_order Statics.zero ((initResults (envOf []) 0).store Statics.zero)
    (envOf []) 0 ((appInit Statics.zero).run (envOf []) 0).2 (by decide)

/-! ## The task bodies -/

/-- The function `getGyroRateOfRotation` is one call of the gyro driver followed by the
five-band table. -/
theorem getGyroRateOfRotation_eq :
    getGyroRateOfRotation = .call .Gyro_Get_Velocity (fun v => .ret (classify v)) := by
  simp only [getGyroRateOfRotation, Gyro_Get_Velocity, bind, Prog.bind, pure,
    gyroRotationRate.toInt]
  congr 1
  funext v
  have hv : ∃ w : Int, w = v := ⟨v, rfl⟩
  obtain ⟨w, rfl⟩ := hv
  simp only [classify]
  split_ifs <;> first | rfl | omega

/-- The run of one pass of `gyroInput`. -/
theorem gyroInput_iteration_run (S : Statics) (env : Env) (n : Nat) :
    (gyroInput_iteration S).run env n =
      if listedError (env n (.osSemaphoreAcquire S.gyroInputSemaphorID osWaitForever)) then
        (.halted, [.osSemaphoreAcquire S.gyroInputSemaphorID osWaitForever])
      else if listedError (env (n + 2)
          (.osMessageQueuePut S.ledInfoMsgQueueID
            { S.appMessage with rotation := classify (env (n + 1) .Gyro_Get_Velocity) }
            DEFAULT_MSG_PRIORITY osWaitForever)) then
        (.halted,
          [ .osSemaphoreAcquire S.gyroInputSemaphorID osWaitForever,
            .Gyro_Get_Velocity,
            .osMessageQueuePut S.ledInfoMsgQueueID
              { S.appMessage with rotation := classify (env (n + 1) .Gyro_Get_Velocity) }
              DEFAULT_MSG_PRIORITY osWaitForever ])
      else
        (.returned
            { S with
              appMessage :=
                { S.appMessage with rotation := classify (env (n + 1) .Gyro_Get_Velocity) } },
          [ .osSemaphoreAcquire S.gyroInputSemaphorID osWaitForever,
            .Gyro_Get_Velocity,
            .osMessageQueuePut S.ledInfoMsgQueueID
              { S.appMessage with rotation := classify (env (n + 1) .Gyro_Get_Velocity) }
              DEFAULT_MSG_PRIORITY osWaitForever ]) := by
  unfold gyroInput_iteration
  rw [getGyroRateOfRotation_eq]
  simp only [osSemaphoreAcquire, osMessageQueuePut, bind, Prog.bind, pure, Prog.run]
  generalize (env n (.osSemaphoreAcquire S.gyroInputSemaphorID osWaitForever) : osStatus_t) = a
  cases a <;> simp [listedError, Prog.bind, Prog.run] <;>
  · generalize (env (n + 2)
        (.osMessageQueuePut S.ledInfoMsgQueueID
          { S.appMessage with rotation := classify (env (n + 1) .Gyro_Get_Velocity) }
          DEFAULT_MSG_PRIORITY osWaitForever) : osStatus_t) = p
    cases p <;> simp [Prog.bind, Prog.run]

/-- The run of one pass of `buttonInput`. -/
theorem buttonInput_iteration_run (S : Statics) (env : Env) (n : Nat) :
    (buttonInput_iteration S).run env n =
      if listedFlagsError (env n
          (.osEventFlagsWait S.buttonEventFlagID BUTTON_EVENT_FLAG osFlagsWaitAll
            osWaitForever)) then
        (.halted,
          [.osEventFlagsWait S.buttonEventFlagID BUTTON_EVENT_FLAG osFlagsWaitAll osWaitForever])
      else if listedError (env (n + 2)
          (.osMessageQueuePut S.ledInfoMsgQueueID
            { S.appMessage with
              buttonState := env (n + 1) (.HAL_GPIO_ReadPin BUTTON_PORT BUTTON_PIN) }
            DEFAULT_MSG_PRIORITY osWaitForever)) then
        (.halted,
          [ .osEventFlagsWait S.buttonEventFlagID BUTTON_EVENT_FLAG osFlagsWaitAll osWaitForever,
            .HAL_GPIO_ReadPin BUTTON_PORT BUTTON_PIN,
            .osMessageQueuePut S.ledInfoMsgQueueID
              { S.appMessage with
                buttonState := env (n + 1) (.HAL_GPIO_ReadPin BUTTON_PORT BUTTON_PIN) }
              DEFAULT_MSG_PRIORITY osWaitForever ])
      else
        (.returned
            { S with
              appMessage :=
                { S.appMessage with
                  buttonState := env (n + 1) (.HAL_GPIO_ReadPin BUTTON_PORT BUTTON_PIN) } },
          [ .osEventFlagsWait S.buttonEventFlagID BUTTON_EVENT_FLAG osFlagsWaitAll osWaitForever,
            .HAL_GPIO_ReadPin BUTTON_PORT BUTTON_PIN,
            .osMessageQueuePut S.ledInfoMsgQueueID
              { S.appMessage with
                buttonState := env (n + 1) (.HAL_GPIO_ReadPin BUTTON_PORT BUTTON_PIN) }
              DEFAULT_MSG_PRIORITY osWaitForever ]) := by
  simp only [buttonInput_iteration, sampleUserButton, osEventFlagsWait, HAL_GPIO_ReadPin,
    osMessageQueuePut, bind, Prog.bind, pure, Prog.run]
  by_cases hf : listedFlagsError (env n
      (.osEventFlagsWait S.buttonEventFlagID BUTTON_EVENT_FLAG osFlagsWaitAll osWaitForever))
      = true
  · have hf' := hf
    simp only [listedFlagsError, Bool.or_eq_true, decide_eq_true_eq, or_assoc] at hf'
    simp [hf, hf', Prog.bind, Prog.run]
  · have hf' := hf
    simp only [listedFlagsError, Bool.or_eq_true, decide_eq_true_eq, or_assoc] at hf'
    simp only [hf, hf', if_false, Prog.bind, Prog.run]
    generalize (env (n + 2)
        (.osMessageQueuePut S.ledInfoMsgQueueID
          { S.appMessage with
            buttonState := env (n + 1) (.HAL_GPIO_ReadPin BUTTON_PORT BUTTON_PIN) }
          DEFAULT_MSG_PRIORITY osWaitForever) : osStatus_t) = p
    cases p <;> simp [listedError, Prog.bind, Prog.run]

/-- The run of one pass of `ledOutput`. -/
theorem ledOutput_iteration_run (S : Statics) (buf : Message_t) (env : Env) (n : Nat) :
    (ledOutput_iteration S buf).run env n =
      if listedError (env n (.osMessageQueueGet S.ledInfoMsgQueueID buf osWaitForever)).1 then
        (.halted, [.osMessageQueueGet S.ledInfoMsgQueueID buf osWaitForever])
      else
        (.returned (env n (.osMessageQueueGet S.ledInfoMsgQueueID buf osWaitForever)).2,
          .osMessageQueueGet S.ledInfoMsgQueueID buf osWaitForever ::
            ((driveLEDs (env n (.osMessageQueueGet S.ledInfoMsgQueueID buf osWaitForever)).2).run
              env (n + 1)).2) := by
  simp only [ledOutput_iteration, osMessageQueueGet, bind, Prog.bind, pure, Prog.run]
  generalize (env n (.osMessageQueueGet S.ledInfoMsgQueueID buf osWaitForever)
    : osStatus_t × Message_t) = r
  obtain ⟨st, m⟩ := r
  have hd : ∀ k : Nat, ((driveLEDs m).bind (fun _ => Prog.ret m)).run env k =
      (.returned m, ((driveLEDs m).run env k).2) := by
    intro k
    simp only [driveLEDs, HAL_GPIO_WritePin, bind, Prog.bind]
    split_ifs <;> simp [Prog.run, Prog.bind]
  cases st <;> simp [listedError, Prog.bind, Prog.run, hd]

/-- The run of `appTimerCallback`. -/
theorem appTimerCallback_run (S : Statics) (env : Env) (n : Nat) :
    (appTimerCallback S).run env n =
      (if listedReleaseError (env n (.osSemaphoreRelease S.gyroInputSemaphorID)) then .halted
        else .returned (),
        [.osSemaphoreRelease S.gyroInputSemaphorID]) := by
  simp only [appTimerCallback, osSemaphoreRelease, bind, Prog.bind, pure, Prog.run]
  generalize (env n (.osSemaphoreRelease S.gyroInputSemaphorID) : osStatus_t) = a
  cases a <;> simp [listedReleaseError, Prog.bind, Prog.run]

/-! ## The task loops -/

/-- A pass that ends in `while(1){}` ends the loop, however many passes are allowed. -/
theorem runLoop_of_halting_pass {σ : Type} (body : σ → Prog σ) (env : Env) (passes : Nat)
    (s : σ) (n : Nat) (calls : List Call) (h : (body s).run env n = (.halted, calls)) :
    runLoop body env (passes + 1) s n = (.halted, calls) := by
  simp [runLoop, h]

/-- A loop that is in `while(1){}` makes no further call: allowing it more passes
changes nothing. -/
theorem runLoop_halted_stable {σ : Type} (body : σ → Prog σ) (env : Env) (p q : Nat)
    (s : σ) (n : Nat) (calls : List Call) (hpq : p ≤ q)
    (h : runLoop body env p s n = (.halted, calls)) :
    runLoop body env q s n = (.halted, calls) := by
  induction p generalizing q s n calls with
  | zero => simp [runLoop] at h
  | succ p ih =>
    obtain ⟨q, rfl⟩ : ∃ q', q = q' + 1 := ⟨q - 1, by omega⟩
    have hpq' : p ≤ q := by omega
    simp only [runLoop] at h ⊢
    rcases hb : (body s).run env n with ⟨o, t⟩
    rw [hb] at h
    cases o with
    | halted => simpa using h
    | returned s' =>
      simp only at h ⊢
      rcases hr : runLoop body env p s' (n + t.length) with ⟨o', t'⟩
      rw [hr] at h
      simp only [Prod.mk.injEq] at h
      obtain ⟨h1, h2⟩ := h
      subst h1
      rw [ih q s' (n + t.length) t' hpq' hr]
      simp [h2]

/-- When a loop is back at its head after `p` passes and its next pass ends in
`while(1){}`, the calls of the whole run are those made so far followed by those
of the halting pass, however many more passes are allowed. -/
theorem runLoop_then_halting_pass {σ : Type} (body : σ → Prog σ) (env : Env) (p q : Nat)
    (s s' : σ) (n : Nat) (calls calls' : List Call)
    (h1 : runLoop body env p s n = (.atHead s', calls))
    (h2 : (body s').run env (n + calls.length) = (.halted, calls')) :
    runLoop body env (p + 1 + q) s n = (.halted, calls ++ calls') := by
  induction p generalizing s n calls with
  | zero =>
    simp only [runLoop, Prod.mk.injEq, LoopOutcome.atHead.injEq] at h1
    obtain ⟨rfl, rfl⟩ := h1
    have h3 : (body s).run env n = (.halted, calls') := by simpa using h2
    have h4 := runLoop_of_halting_pass body env q s n calls' h3
    have h5 : 0 + 1 + q = q + 1 := by omega
    rw [h5, h4]
    simp
  | succ p ih =>
    have h5 : p + 1 + 1 + q = (p + 1 + q) + 1 := by omega
    rw [h5]
    simp only [runLoop] at h1 ⊢
    rcases hb : (body s).run env n with ⟨o, t⟩
    rw [hb] at h1
    cases o with
    | halted => simp at h1
    | returned s1 =>
      simp only at h1 ⊢
      rcases hr : runLoop body env p s1 (n + t.length) with ⟨o', t'⟩
      rw [hr] at h1
      simp only [Prod.mk.injEq] at h1
      obtain ⟨h6, h7⟩ := h1
      subst h6 h7
      have h8 : (body s').run env (n + t.length + t'.length) = (.halted, calls') := by
        rw [← h2]
        congr 1
        simp only [List.length_append]
        omega
      rw [ih s1 (n + t.length) t' hr h8]
      simp

/-- C9: a pass of `buttonInput` whose wait and enqueue do not return a listed
error stores the pin value read in `appMessage.buttonState`, leaves
`appMessage.rotation` and every other static as it was, and enqueues exactly
(pin value read, rotation staged before the pass); a pass of `gyroInput` whose
acquire and enqueue do not return a listed error stores the band returned by
`getGyroRateOfRotation` in `appMessage.rotation`, leaves `appMessage.buttonState`
and every other static as it was, and enqueues exactly (button state staged
before the pass, that band). -/
theorem iteration_updates_own_field (S : Statics) (env : Env) (n : Nat) :
    (listedFlagsError (env n
          (.osEventFlagsWait S.buttonEventFlagID BUTTON_EVENT_FLAG osFlagsWaitAll
            osWaitForever)) = false →
      listedError (env (n + 2)
          (.osMessageQueuePut S.ledInfoMsgQueueID
            { buttonState := env (n + 1) (.HAL_GPIO_ReadPin BUTTON_PORT BUTTON_PIN),
              rotation := S.appMessage.rotation }
            DEFAULT_MSG_PRIORITY osWaitForever)) = false →
      (buttonInput_iteration S).run env n =
        (.returned
            { S with
              appMessage :=
                { buttonState := env (n + 1) (.HAL_GPIO_ReadPin BUTTON_PORT BUTTON_PIN),
                  rotation := S.appMessage.rotation } },
          [ .osEventFlagsWait S.buttonEventFlagID BUTTON_EVENT_FLAG osFlagsWaitAll osWaitForever,
            .HAL_GPIO_ReadPin BUTTON_PORT BUTTON_PIN,
            .osMessageQueuePut S.ledInfoMsgQueueID
              { buttonState := env (n + 1) (.HAL_GPIO_ReadPin BUTTON_PORT BUTTON_PIN),
                rotation := S.appMessage.rotation }
              DEFAULT_MSG_PRIORITY osWaitForever ])) ∧
    (∃ band : gyroRotationRate,
      getGyroRateOfRotation.run env (n + 1) = (.returned band, [.Gyro_Get_Velocity]) ∧
      (listedError (env n (.osSemaphoreAcquire S.gyroInputSemaphorID osWaitForever)) = false →
        listedError (env (n + 2)
            (.osMessageQueuePut S.ledInfoMsgQueueID
              { buttonState := S.appMessage.buttonState, rotation := band }
              DEFAULT_MSG_PRIORITY osWaitForever)) = false →
        (gyroInput_iteration S).run env n =
          (.returned
              { S with
                appMessage := { buttonState := S.appMessage.buttonState, rotation := band } },
            [ .osSemaphoreAcquire S.gyroInputSemaphorID osWaitForever,
              .Gyro_Get_Velocity,
              .osMessageQueuePut S.ledInfoMsgQueueID
                { buttonState := S.appMessage.buttonState, rotation := band }
                DEFAULT_MSG_PRIORITY osWaitForever ]))) := by
  refine ⟨?_, classify (env (n + 1) .Gyro_Get_Velocity), ?_, ?_⟩
  · intro h1 h2
    rw [buttonInput_iteration_run]
    simp [h1, h2]
  · rw [getGyroRateOfRotation_eq]
    simp [Prog.run]
  · intro h1 h2
    rw [gyroInput_iteration_run]
    simp [h1, h2]

/-- An instance of `iteration_updates_own_field`: from staged (released,
clockwiseFast) a button pass that reads the pin as pressed enqueues (pressed,
clockwiseFast); from staged (pressed, nearlyZero) a sensor pass that reads
-2000 enqueues (pressed, counterClockwiseSlow). -/
theorem iteration_updates_own_field_witness :
    (buttonInput_iteration
        { Statics.zero with
          appMessage := { buttonState := .GPIO_PIN_RESET, rotation := .clockwiseFast } }).run
        (envOf []) 0 =
      (.returned
          { Statics.zero with
            appMessage := { buttonState := .GPIO_PIN_SET, rotation := .clockwiseFast } },
        [ .osEventFlagsWait NULL BUTTON_EVENT_FLAG osFlagsWaitAll osWaitForever,
          .HAL_GPIO_ReadPin BUTTON_PORT BUTTON_PIN,
          .osMessageQueuePut NULL { buttonState := .GPIO_PIN_SET, rotation := .clockwiseFast }
            DEFAULT_MSG_PRIORITY osWaitForever ]) ∧
    (gyroInput_iteration
        { Statics.zero with
          appMessage := { buttonState := .GPIO_PIN_SET, rotation := .nearlyZero } }).run
        (envOf [Answer.ok, { Answer.ok with velocity := -2000 }]) 0 =
      (.returned
          { Statics.zero with
            appMessage := { buttonState := .GPIO_PIN_SET, rotation := .counterClockwiseSlow } },
        [ .osSemaphoreAcquire NULL osWaitForever,
          .Gyro_Get_Velocity,
          .osMessageQueuePut NULL
            { buttonState := .GPIO_PIN_SET, rotation := .counterClockwiseSlow }
            DEFAULT_MSG_PRIORITY osWaitForever ]) := by
  refine ⟨(iteration_updates_own_field
      { Statics.zero with
        appMessage := { buttonState := .GPIO_PIN_RESET, rotation := .clockwiseFast } }
      (envOf []) 0).1 (by decide) (by decide), ?_⟩
  obtain ⟨band, hband, h⟩ := (iteration_updates_own_field
      { Statics.zero with
        appMessage := { buttonState := .GPIO_PIN_SET, rotation := .nearlyZero } }
      (envOf [Answer.ok, { Answer.ok with velocity := -2000 }]) 0).2
  have hb : band = .counterClockwiseSlow := by
    have h0 : getGyroRateOfRotation.run
        (envOf [Answer.ok, { Answer.ok with velocity := -2000 }]) (0 + 1)
        = (.returned .counterClockwiseSlow, [.Gyro_Get_Velocity]) := by decide
    rw [h0] at hband
    simpa using hband.symm
  subst hb
  exact h (by decide) (by decide)

/-! ## Error statuses -/

/-- C4, where it fails: (1) `osEventFlagsSet` returning the error code
osFlagsErrorParameter does not halt `EXTI0_IRQHandler`, which goes on to clear
the pending flag and enable the line and then returns; (2) `osSemaphoreAcquire`
returning osError, a status other than osOK, does not halt `gyroInput`, which
goes on to read the sensor and to enqueue and is back at the head of its loop. -/
theorem unchecked_or_unlisted_error_does_not_halt :
    flagsIsError osFlagsErrorParameter = true ∧
      (EXTI0_IRQHandler Statics.zero).run
          (envOf [Answer.ok, { Answer.ok with flags := osFlagsErrorParameter }]) 0 =
        (.returned (),
          [ .HAL_NVIC_DisableIRQ BUTTON_IRQn,
            .osEventFlagsSet NULL BUTTON_EVENT_FLAG,
            .__HAL_GPIO_EXTI_CLEAR_IT BUTTON_PIN,
            .HAL_NVIC_EnableIRQ BUTTON_IRQn ]) ∧
      osStatus_t.osError ≠ osStatus_t.osOK ∧
      gyroInput (envOf [{ Answer.ok with status := .osError }]) 1 Statics.zero 0 =
        (.atHead Statics.zero,
          [ .osSemaphoreAcquire NULL osWaitForever,
            .Gyro_Get_Velocity,
            .osMessageQueuePut NULL { buttonState := .GPIO_PIN_RESET, rotation := .nearlyZero }
              DEFAULT_MSG_PRIORITY osWaitForever ]) := by
  decide

/-- C4 as amended: at each call site whose returned value is checked, a returned
value that the `switch` of the site lists puts the calling context in
`while(1){}` with that call as its last call, however many more passes the task
is allowed: osErrorResource or osErrorParameter from the release in
`appTimerCallback`; osErrorTimeout, osErrorResource or osErrorParameter from the
acquire and the enqueue in `gyroInput`, the enqueue in `buttonInput` and the
dequeue in `ledOutput`; osFlagsErrorUnknown, osFlagsErrorTimeout,
osFlagsErrorResource or osFlagsErrorParameter from the wait in `buttonInput`.
A task loop that is in `while(1){}` stays there and makes no further call.
`EXTI0_IRQHandler`, which does not check what its set returns, returns. -/
theorem listed_error_halts_context (S : Statics) (buf : Message_t) (env : Env)
    (n passes : Nat) :
    (listedReleaseError (env n (.osSemaphoreRelease S.gyroInputSemaphorID)) = true →
      (appTimerCallback S).run env n =
        (.halted, [.osSemaphoreRelease S.gyroInputSemaphorID])) ∧
    (listedError (env n (.osSemaphoreAcquire S.gyroInputSemaphorID osWaitForever)) = true →
      gyroInput env (passes + 1) S n =
        (.halted, [.osSemaphoreAcquire S.gyroInputSemaphorID osWaitForever])) ∧
    (listedError (env n (.osSemaphoreAcquire S.gyroInputSemaphorID osWaitForever)) = false →
      listedError (env (n + 2)
          (.osMessageQueuePut S.ledInfoMsgQueueID
            { S.appMessage with rotation := classify (env (n + 1) .Gyro_Get_Velocity) }
            DEFAULT_MSG_PRIORITY osWaitForever)) = true →
      gyroInput env (passes + 1) S n =
        (.halted,
          [ .osSemaphoreAcquire S.gyroInputSemaphorID osWaitForever,
            .Gyro_Get_Velocity,
            .osMessageQueuePut S.ledInfoMsgQueueID
              { S.appMessage with rotation := classify (env (n + 1) .Gyro_Get_Velocity) }
              DEFAULT_MSG_PRIORITY osWaitForever ])) ∧
    (listedFlagsError (env n
          (.osEventFlagsWait S.buttonEventFlagID BUTTON_EVENT_FLAG osFlagsWaitAll
            osWaitForever)) = true →
      buttonInput env (passes + 1) S n =
        (.halted,
          [ .osEventFlagsWait S.buttonEventFlagID BUTTON_EVENT_FLAG osFlagsWaitAll
              osWaitForever ])) ∧
    (listedFlagsError (env n
          (.osEventFlagsWait S.buttonEventFlagID BUTTON_EVENT_FLAG osFlagsWaitAll
            osWaitForever)) = false →
      listedError (env (n + 2)
          (.osMessageQueuePut S.ledInfoMsgQueueID
            { S.appMessage with
              buttonState := env (n + 1) (.HAL_GPIO_ReadPin BUTTON_PORT BUTTON_PIN) }
            DEFAULT_MSG_PRIORITY osWaitForever)) = true →
      buttonInput env (passes + 1) S n =
        (.halted,
          [ .osEventFlagsWait S.buttonEventFlagID BUTTON_EVENT_FLAG osFlagsWaitAll osWaitForever,
            .HAL_GPIO_ReadPin BUTTON_PORT BUTTON_PIN,
            .osMessageQueuePut S.ledInfoMsgQueueID
              { S.appMessage with
                buttonState := env (n + 1) (.HAL_GPIO_ReadPin BUTTON_PORT BUTTON_PIN) }
              DEFAULT_MSG_PRIORITY osWaitForever ])) ∧
    (listedError (env n (.osMessageQueueGet S.ledInfoMsgQueueID buf osWaitForever)).1 = true →
      ledOutput env (passes + 1) S buf n =
        (.halted, [.osMessageQueueGet S.ledInfoMsgQueueID buf osWaitForever])) ∧
    (∀ p q calls, p ≤ q →
      (gyroInput env p S n = (.halted, calls) → gyroInput env q S n = (.halted, calls)) ∧
      (buttonInput env p S n = (.halted, calls) → buttonInput env q S n = (.halted, calls)) ∧
      (ledOutput env p S buf n = (.halted, calls) →
        ledOutput env q S buf n = (.halted, calls))) ∧
    ((EXTI0_IRQHandler S).run env n).1 = .returned () := by
  refine ⟨?_, ?_, ?_, ?_, ?_, ?_, ?_, ?_⟩
  · intro h
    rw [appTimerCallback_run]
    simp [h]
  · intro h
    apply runLoop_of_halting_pass
    rw [gyroInput_iteration_run]
    simp [h]
  · intro h1 h2
    apply runLoop_of_halting_pass
    rw [gyroInput_iteration_run]
    simp [h1, h2]
  · intro h
    apply runLoop_of_halting_pass
    rw [buttonInput_iteration_run]
    simp [h]
  · intro h1 h2
    apply runLoop_of_halting_pass
    rw [buttonInput_iteration_run]
    simp [h1, h2]
  · intro h
    apply runLoop_of_halting_pass
    rw [ledOutput_iteration_run]
    simp [h]
  · intro p q calls hpq
    exact ⟨runLoop_halted_stable _ env p q S n calls hpq,
      runLoop_halted_stable _ env p q S n calls hpq,
      runLoop_halted_stable _ env p q buf n calls hpq⟩
  · rw [EXTI0_IRQHandler_run]

/-- An instance of `listed_error_halts_context`: the release returns osErrorResource; the
acquire returns osErrorTimeout; the enqueue of `gyroInput` returns
osErrorParameter; the wait returns osFlagsErrorTimeout; the enqueue of
`buttonInput` returns osErrorResource; the dequeue returns osErrorParameter. -/
theorem listed_error_halts_context_witness :
    (appTimerCallback Statics.zero).run (envOf [{ Answer.ok with status := .osErrorResource }]) 0
        = (.halted, [.osSemaphoreRelease NULL]) ∧
      gyroInput (envOf [{ Answer.ok with status := .osErrorTimeout }]) 3 Statics.zero 0
        = (.halted, [.osSemaphoreAcquire NULL osWaitForever]) ∧
      gyroInput (envOf [Answer.ok, Answer.ok, { Answer.ok with status := .osErrorParameter }])
          3 Statics.zero 0
        = (.halted,
            [ .osSemaphoreAcquire NULL osWaitForever,
              .Gyro_Get_Velocity,
              .osMessageQueuePut NULL
                { buttonState := .GPIO_PIN_RESET, rotation := .nearlyZero }
                DEFAULT_MSG_PRIORITY osWaitForever ]) ∧
      buttonInput (envOf [{ Answer.ok with flags := osFlagsErrorTimeout }]) 3 Statics.zero 0
        = (.halted,
            [.osEventFlagsWait NULL BUTTON_EVENT_FLAG osFlagsWaitAll osWaitForever]) ∧
      buttonInput (envOf [Answer.ok, Answer.ok, { Answer.ok with status := .osErrorResource }])
          3 Statics.zero 0
        = (.halted,
            [ .osEventFlagsWait NULL BUTTON_EVENT_FLAG osFlagsWaitAll osWaitForever,
              .HAL_GPIO_ReadPin BUTTON_PORT BUTTON_PIN,
              .osMessageQueuePut NULL
                { buttonState := .GPIO_PIN_SET, rotation := .nearlyZero }
                DEFAULT_MSG_PRIORITY osWaitForever ]) ∧
      ledOutput (envOf [{ Answer.ok with status := .osErrorParameter }]) 3 Statics.zero
          Answer.ok.msg 0
        = (.halted, [.osMessageQueueGet NULL Answer.ok.msg osWaitForever]) :=
  ⟨(listed_error_halts_context Statics.zero Answer.ok.msg
      (envOf [{ Answer.ok with status := .osErrorResource }]) 0 2).1 (by decide),
    (listed_error_halts_context Statics.zero Answer.ok.msg
      (envOf [{ Answer.ok with status := .osErrorTimeout }]) 0 2).2.1 (by decide),
    (listed_error_halts_context Statics.zero Answer.ok.msg
      (envOf [Answer.ok, Answer.ok, { Answer.ok with status := .osErrorParameter }]) 0 2).2.2.1
      (by decide) (by decide),
    (listed_error_halts_context Statics.zero Answer.ok.msg
      (envOf [{ Answer.ok with flags := osFlagsErrorTimeout }]) 0 2).2.2.2.1 (by decide),
    (listed_error_halts_context Statics.zero Answer.ok.msg
      (envOf [Answer.ok, Answer.ok, { Answer.ok with status := .osErrorResource }]) 0 2).2.2.2.2.1
      (by decide) (by decide),
    (listed_error_halts_context Statics.zero Answer.ok.msg
      (envOf [{ Answer.ok with status := .osErrorParameter }]) 0 2).2.2.2.2.2.1 (by decide)⟩

/-- C5: in a pass of `ledOutput`, for every status the dequeue call returns
(osOK, osErrorTimeout, osErrorResource or osErrorParameter): the actuator
`driveLEDs` writes a pin if and only if the status is osOK; when it is osOK the
calls of the pass are the dequeue followed by exactly one invocation of
`driveLEDs` on the Sample the dequeue copied into the buffer, and the pass
returns; when it is any other of these statuses the task is in `while(1){}` with
the dequeue as its only call, no pin written, however many passes are allowed. -/
theorem ledOutput_actuates_iff_osOK (S : Statics) (buf : Message_t) (env : Env)
    (n passes : Nat)
    (h : dequeueReturns (env n (.osMessageQueueGet S.ledInfoMsgQueueID buf osWaitForever)).1
      = true) :
    ((∃ c ∈ ((ledOutput_iteration S buf).run env n).2, c.isPinWrite = true) ↔
      (env n (.osMessageQueueGet S.ledInfoMsgQueueID buf osWaitForever)).1 = .osOK) ∧
    ((env n (.osMessageQueueGet S.ledInfoMsgQueueID buf osWaitForever)).1 = .osOK →
      (ledOutput_iteration S buf).run env n =
        (.returned (env n (.osMessageQueueGet S.ledInfoMsgQueueID buf osWaitForever)).2,
          .osMessageQueueGet S.ledInfoMsgQueueID buf osWaitForever ::
            ((driveLEDs (env n (.osMessageQueueGet S.ledInfoMsgQueueID buf osWaitForever)).2).run
              env (n + 1)).2)) ∧
    ((env n (.osMessageQueueGet S.ledInfoMsgQueueID buf osWaitForever)).1 ≠ .osOK →
      (ledOutput_iteration S buf).run env n =
          (.halted, [.osMessageQueueGet S.ledInfoMsgQueueID buf osWaitForever]) ∧
        ledOutput env (passes + 1) S buf n =
          (.halted, [.osMessageQueueGet S.ledInfoMsgQueueID buf osWaitForever])) := by
  have hrun := ledOutput_iteration_run S buf env n
  have hd := driveLEDs_run
    (env n (.osMessageQueueGet S.ledInfoMsgQueueID buf osWaitForever)).2 env (n + 1)
  generalize (env n (.osMessageQueueGet S.ledInfoMsgQueueID buf osWaitForever)
    : osStatus_t × Message_t) = r at h hrun hd ⊢
  obtain ⟨st, m⟩ := r
  simp only at h hrun hd ⊢
  have hcases : st = .osOK ∨ listedError st = true := by
    cases st <;> simp [dequeueReturns, listedError] at h ⊢
  rcases hcases with hok | herr
  · subst hok
    have hrun' : (ledOutput_iteration S buf).run env n =
        (.returned m,
          .osMessageQueueGet S.ledInfoMsgQueueID buf osWaitForever ::
            ((driveLEDs m).run env (n + 1)).2) := by
      rw [hrun]
      rfl
    refine ⟨?_, fun _ => hrun', fun hne => absurd rfl hne⟩
    rw [hrun', hd]
    exact iff_of_true ⟨_, List.mem_cons_of_mem _ (List.mem_cons_self _ _), rfl⟩ rfl
  · have hne : st ≠ .osOK := by
      intro h0
      subst h0
      simp [listedError] at herr
    have hrun' : (ledOutput_iteration S buf).run env n =
        (.halted, [.osMessageQueueGet S.ledInfoMsgQueueID buf osWaitForever]) := by
      rw [hrun]
      simp [herr]
    refine ⟨?_, fun h0 => absurd h0 hne,
      fun _ => ⟨hrun', runLoop_of_halting_pass _ env passes buf n _ hrun'⟩⟩
    rw [hrun']
    simp [Call.isPinWrite, hne]

/-- An instance of `ledOutput_actuates_iff_osOK`: when the dequeue returns osOK with
the Sample (pressed, nearlyZero) the pass writes green SET and red SET and
returns; when it returns osErrorResource the task halts after the dequeue. -/
theorem ledOutput_actuates_iff_osOK_witness :
    (ledOutput_iteration Statics.zero
        { buttonState := .GPIO_PIN_RESET, rotation := .clockwiseSlow }).run (envOf []) 0 =
      (.returned { buttonState := .GPIO_PIN_SET, rotation := .nearlyZero },
        [ .osMessageQueueGet NULL { buttonState := .GPIO_PIN_RESET, rotation := .clockwiseSlow }
            osWaitForever,
          .HAL_GPIO_WritePin GREEN_LED_PORT GREEN_LED_PIN .GPIO_PIN_SET,
          .HAL_GPIO_WritePin RED_LED_PORT RED_LED_PIN .GPIO_PIN_SET ]) ∧
    ledOutput (envOf [{ Answer.ok with status := .osErrorResource }]) 4 Statics.zero
        { buttonState := .GPIO_PIN_RESET, rotation := .clockwiseSlow } 0 =
      (.halted,
        [ .osMessageQueueGet NULL { buttonState := .GPIO_PIN_RESET, rotation := .clockwiseSlow }
            osWaitForever ]) :=
  ⟨(ledOutput_actuates_iff_osOK Statics.zero
      { buttonState := .GPIO_PIN_RESET, rotation := .clockwiseSlow } (envOf []) 0 0
      (by decide)).2.1 (by decide),
    ((ledOutput_actuates_iff_osOK Statics.zero
      { buttonState := .GPIO_PIN_RESET, rotation := .clockwiseSlow }
      (envOf [{ Answer.ok with status := .osErrorResource }]) 0 3
      (by decide)).2.2 (by decide)).2⟩

/-! ## Timer cadence -/

/-- A pass of `gyroInput` is the acquire, the `switch` on its status, and the rest. -/
theorem gyroInput_iteration_eq (S : Statics) :
    gyroInput_iteration S =
      .call (.osSemaphoreAcquire S.gyroInputSemaphorID osWaitForever)
        (fun a => if listedError a then .spin else gyroInput_afterAcquire S) := by
  unfold gyroInput_iteration
  rw [getGyroRateOfRotation_eq]
  simp only [osSemaphoreAcquire, osMessageQueuePut, bind, Prog.bind, pure,
    gyroInput_afterAcquire, gyroInput_afterRead]
  congr 1
  funext a
  cases a <;> simp [listedError, Prog.bind] <;>
    (funext v; congr 1; funext p; cases p <;> simp)

/-- The callback `appTimerCallback` is the release and the `switch` on its status. -/
theorem appTimerCallback_eq (S : Statics) :
    appTimerCallback S =
      .call (.osSemaphoreRelease S.gyroInputSemaphorID)
        (fun a => if listedReleaseError a then .spin else .ret ()) := by
  simp only [appTimerCallback, osSemaphoreRelease, bind, Prog.bind, pure]
  congr 1
  funext a
  cases a <;> simp [listedReleaseError, Prog.bind]

/-- The number of sensor reads after one more completed call. -/
theorem count_reads_append (calls : List Call) (c : Call) :
    (calls ++ [c]).count .Gyro_Get_Velocity =
      calls.count .Gyro_Get_Velocity + (if c = .Gyro_Get_Velocity then 1 else 0) := by
  rw [List.count_append, List.count_singleton]
  by_cases h : c = .Gyro_Get_Velocity <;> simp [h]

/-- A firing with a permit missing adds the permit. -/
theorem timerFires_release (sys : System) (ht : sys.timerHalted = false)
    (hh : sys.semaphore.handle = sys.S.gyroInputSemaphorID)
    (hc : sys.semaphore.count < sys.semaphore.max_count) :
    sys.timerFires =
      { sys with
        semaphore := { sys.semaphore with count := sys.semaphore.count + 1 }
        timerFirings := sys.timerFirings + 1 } := by
  obtain ⟨S, ⟨handle, max_count, count⟩, gyro, calls, F, th⟩ := sys
  simp only at ht hh hc
  subst ht hh
  simp [System.timerFires, appTimerCallback_eq, Semaphore.release, hc, listedReleaseError]

/-- A firing with the semaphore at capacity puts the callback in `while(1){}`. -/
theorem timerFires_full (sys : System) (ht : sys.timerHalted = false)
    (hh : sys.semaphore.handle = sys.S.gyroInputSemaphorID)
    (hc : ¬ sys.semaphore.count < sys.semaphore.max_count) :
    sys.timerFires.timerHalted = true := by
  obtain ⟨S, ⟨handle, max_count, count⟩, gyro, calls, F, th⟩ := sys
  simp only at ht hh hc
  subst ht hh
  simp [System.timerFires, appTimerCallback_eq, Semaphore.release, hc, listedReleaseError]

/-- A halted callback stays halted. -/
theorem timerFires_halted (sys : System) (ht : sys.timerHalted = true) :
    sys.timerFires = sys := by
  simp [System.timerFires, ht]

/-- Continuing `gyroInput` never touches the timer side. -/
theorem continue_timerHalted (sys : System) (p : Prog Statics) :
    (System.continue sys p).timerHalted = sys.timerHalted := by
  cases p <;> simp [System.continue]

/-- A run of `gyroInput` leaves a halted timer callback halted. -/
theorem gyroRuns_timerHalted (sys : System) (v : Int) (p : osStatus_t) :
    (sys.gyroRuns v p).timerHalted = sys.timerHalted := by
  unfold System.gyroRuns
  split
  · split
    · simp [continue_timerHalted]
    · rfl
  · simp [continue_timerHalted]
  · simp [continue_timerHalted]
  · rfl

/-- A task in `while(1){}` does nothing. -/
theorem gyroRuns_spin (sys : System) (v : Int) (p : osStatus_t) (hg : sys.gyro = .spin) :
    sys.gyroRuns v p = sys := by
  simp [System.gyroRuns, hg]

/-- At the head of the loop with no permit, the task stays blocked. -/
theorem gyroRuns_blocked (sys : System) (v : Int) (p : osStatus_t)
    (hg : sys.gyro = gyroInput_iteration sys.S)
    (hh : sys.semaphore.handle = sys.S.gyroInputSemaphorID)
    (hc : sys.semaphore.count = 0) :
    sys.gyroRuns v p = sys := by
  obtain ⟨S, ⟨handle, max_count, count⟩, gyro, calls, F, th⟩ := sys
  simp only at hg hh hc
  subst hg hh hc
  simp [System.gyroRuns, gyroInput_iteration_eq, Semaphore.acquire]

/-- At the head of the loop with a permit, the task takes it. -/
theorem gyroRuns_acquire (sys : System) (v : Int) (p : osStatus_t)
    (hg : sys.gyro = gyroInput_iteration sys.S)
    (hh : sys.semaphore.handle = sys.S.gyroInputSemaphorID)
    (hc : 0 < sys.semaphore.count) :
    sys.gyroRuns v p =
      { sys with
        semaphore := { sys.semaphore with count := sys.semaphore.count - 1 }
        gyroCalls :=
          sys.gyroCalls ++ [.osSemaphoreAcquire sys.S.gyroInputSemaphorID osWaitForever]
        gyro := gyroInput_afterAcquire sys.S } := by
  obtain ⟨S, ⟨handle, max_count, count⟩, gyro, calls, F, th⟩ := sys
  simp only at hg hh hc
  subst hg hh
  simp [System.gyroRuns, gyroInput_iteration_eq, Semaphore.acquire, hc, listedError,
    System.continue, gyroInput_afterAcquire]

/-- After the acquire, the task reads the sensor. -/
theorem gyroRuns_read (sys : System) (v : Int) (p : osStatus_t)
    (hg : sys.gyro = gyroInput_afterAcquire sys.S) :
    sys.gyroRuns v p =
      { sys with
        gyroCalls := sys.gyroCalls ++ [.Gyro_Get_Velocity]
        gyro := gyroInput_afterRead sys.S v } := by
  obtain ⟨S, sem, gyro, calls, F, th⟩ := sys
  simp only at hg
  subst hg
  simp [System.gyroRuns, System.continue, gyroInput_afterAcquire, gyroInput_afterRead]

/-- After the read, an enqueue that returns a listed error halts the task. -/
theorem gyroRuns_put_error (sys : System) (v v0 : Int) (p : osStatus_t)
    (hg : sys.gyro = gyroInput_afterRead sys.S v0) (hp : listedError p = true) :
    (sys.gyroRuns v p).gyro = .spin ∧ (sys.gyroRuns v p).semaphore = sys.semaphore ∧
      (sys.gyroRuns v p).S = sys.S ∧ (sys.gyroRuns v p).timerFirings = sys.timerFirings := by
  obtain ⟨S, sem, gyro, calls, F, th⟩ := sys
  simp only at hg
  subst hg
  simp [System.gyroRuns, System.continue, gyroInput_afterRead, hp]

/-- After the read, an enqueue that returns no listed error ends the pass. -/
theorem gyroRuns_put (sys : System) (v v0 : Int) (p : osStatus_t)
    (hg : sys.gyro = gyroInput_afterRead sys.S v0) (hp : listedError p = false) :
    sys.gyroRuns v p =
      { sys with
        S := { sys.S with appMessage := { sys.S.appMessage with rotation := classify v0 } }
        gyroCalls :=
          sys.gyroCalls ++
            [ .osMessageQueuePut sys.S.ledInfoMsgQueueID
                { sys.S.appMessage with rotation := classify v0 }
                DEFAULT_MSG_PRIORITY osWaitForever ]
        gyro :=
          gyroInput_iteration
            { sys.S with appMessage := { sys.S.appMessage with rotation := classify v0 } } } := by
  obtain ⟨S, sem, gyro, calls, F, th⟩ := sys
  simp only at hg
  subst hg
  simp [System.gyroRuns, System.continue, gyroInput_afterRead, hp]

/-- Every event preserves the cadence relation. -/
theorem cadence_step (sys : System) (e : Event) (h : sys.cadence) : (sys.step e).cadence := by
  cases e with
  | timerFires =>
    show sys.timerFires.cadence
    rcases h with h | ⟨hh, hm, hphase⟩
    · rw [timerFires_halted sys h]
      exact Or.inl h
    · by_cases ht : sys.timerHalted = true
      · rw [timerFires_halted sys ht]
        exact Or.inl ht
      · have ht' : sys.timerHalted = false := by simpa using ht
        by_cases hc : sys.semaphore.count < sys.semaphore.max_count
        · rw [timerFires_release sys ht' hh hc]
          refine Or.inr ⟨hh, hm, ?_⟩
          simp only [System.sensorReads] at hphase ⊢
          rcases hphase with hs | ⟨hg, hr⟩ | ⟨hg, hr⟩ | ⟨v, hg, hr⟩
          · exact Or.inl hs
          · exact Or.inr (Or.inl ⟨hg, by omega⟩)
          · exact Or.inr (Or.inr (Or.inl ⟨hg, by omega⟩))
          · exact Or.inr (Or.inr (Or.inr ⟨v, hg, by omega⟩))
        · exact Or.inl (timerFires_full sys ht' hh hc)
  | gyroRuns v p =>
    show (sys.gyroRuns v p).cadence
    rcases h with h | ⟨hh, hm, hphase⟩
    · left
      rw [gyroRuns_timerHalted]
      exact h
    · rcases hphase with hs | ⟨hg, hr⟩ | ⟨hg, hr⟩ | ⟨v0, hg, hr⟩
      · rw [gyroRuns_spin sys v p hs]
        exact Or.inr ⟨hh, hm, Or.inl hs⟩
      · by_cases hc : 0 < sys.semaphore.count
        · rw [gyroRuns_acquire sys v p hg hh hc]
          refine Or.inr ⟨hh, hm, Or.inr (Or.inr (Or.inl ⟨rfl, ?_⟩))⟩
          simp only [System.sensorReads, count_reads_append] at hr ⊢
          simp only [reduceCtorEq, if_false]
          omega
        · rw [gyroRuns_blocked sys v p hg hh (by omega)]
          exact Or.inr ⟨hh, hm, Or.inr (Or.inl ⟨hg, hr⟩)⟩
      · rw [gyroRuns_read sys v p hg]
        refine Or.inr ⟨hh, hm, Or.inr (Or.inr (Or.inr ⟨v, rfl, ?_⟩))⟩
        simp only [System.sensorReads, count_reads_append] at hr ⊢
        simp only [if_true]
        omega
      · by_cases hp : listedError p = true
        · obtain ⟨h1, h2, h3, -⟩ := gyroRuns_put_error sys v v0 p hg hp
          refine Or.inr ⟨?_, ?_, Or.inl h1⟩
          · rw [h2, h3]
            exact hh
          · rw [h2]
            exact hm
        · have hp' : listedError p = false := by simpa using hp
          rw [gyroRuns_put sys v v0 p hg hp']
          refine Or.inr ⟨hh, hm, Or.inr (Or.inl ⟨rfl, ?_⟩)⟩
          simp only [System.sensorReads, count_reads_append] at hr ⊢
          simp only [reduceCtorEq, if_false]
          omega

/-- Every sequence of events preserves the cadence relation. -/
theorem cadence_run (events : List Event) (sys : System) (h : sys.cadence) :
    (sys.run events).cadence := by
  induction events generalizing sys with
  | nil => exact h
  | cons e events ih => exact ih (sys.step e) (cadence_step sys e h)

/-- The system after a successful `appInit`: one permit in a semaphore of
capacity one, `gyroInput` at the head of its loop, nothing read, nothing fired. -/
theorem boot_eq (env : Env) (sys : System) (h : System.boot env = some sys) :
    sys =
      { S := (initResults env 0).store Statics.zero
        semaphore :=
          Semaphore.new (initResults env 0).semaphore MAKE_BINARY_SEMAPHORE
            SEMAPHORE_ONE_INIT_TOKEN
        gyro := gyroInput_iteration ((initResults env 0).store Statics.zero)
        gyroCalls := []
        timerFirings := 0
        timerHalted := false } := by
  unfold System.boot at h
  rw [appInit_run] at h
  cases hf : firstTrue (initResults env 0).failures with
  | some k => simp [hf] at h
  | none =>
    simp only [hf, InitResults.steps, semaphoreNewArgs, Option.map_some', Option.some.injEq] at h
    rw [← h]
    rfl

/-- The cadence relation holds after a successful `appInit`. -/
theorem cadence_boot (env : Env) (sys : System) (h : System.boot env = some sys) :
    sys.cadence := by
  rw [boot_eq env sys h]
  exact Or.inr ⟨rfl, rfl, Or.inr (Or.inl ⟨rfl, rfl⟩)⟩

/-- C8 as amended: in every execution that starts from a successful `appInit` (the
semaphore created with capacity 1 and its one pre-loaded permit) and in which
no context is in `while(1){}`, in any reachable state where the timer has fired
N times and `gyroInput` is blocked waiting for the token, the number of sensor
reads performed so far is exactly N + 1. -/
theorem sensorReads_eq_firings_add_one (env : Env) (sys : System) (events : List Event)
    (hboot : System.boot env = some sys)
    (hfault : (sys.run events).faulted = false)
    (hblocked : (sys.run events).gyroBlocked = true) :
    (sys.run events).sensorReads = (sys.run events).timerFirings + 1 := by
  have hc := cadence_run events sys (cadence_boot env sys hboot)
  generalize sys.run events = s at hc hfault hblocked ⊢
  obtain ⟨S, ⟨handle, max_count, count⟩, gyro, calls, F, th⟩ := s
  simp only [System.faulted, Bool.or_eq_false_iff] at hfault
  obtain ⟨hth, hspin⟩ := hfault
  rcases hc with hc | ⟨hh, hm, hphase⟩
  · simp only at hc
    rw [hc] at hth
    exact absurd hth (by decide)
  · simp only at hh hm hphase
    subst hh
    rcases hphase with hs | ⟨hg, hr⟩ | ⟨hg, hr⟩ | ⟨v, hg, hr⟩
    · subst hs
      simp [Prog.isSpin] at hspin
    · subst hg
      simp only [System.gyroBlocked, gyroInput_iteration_eq, Semaphore.acquire] at hblocked
      simp only [System.sensorReads] at hr ⊢
      by_cases h0 : 0 < count
      · simp [h0] at hblocked
      · omega
    · subst hg
      simp [System.gyroBlocked, gyroInput_afterAcquire] at hblocked
    · subst hg
      simp [System.gyroBlocked, gyroInput_afterRead] at hblocked

/-- C8, where it fails: after a successful `appInit` (the semaphore is created
with capacity 1 and 1 initial permit) `gyroInput` acquires the permit, reads the
sensor, enqueues, and blocks on its next acquire; the timer has fired 0 times,
no context is in `while(1){}`, `gyroInput` is blocked waiting for the token, and
the number of sensor reads is 1, not 0; after 2 firings, blocked again, it is 3. -/
theorem one_read_before_first_firing :
    ((System.boot (envOf [])).map fun sys => sys.semaphore) =
        some { handle := 1, max_count := 1, count := 1 } ∧
      ((System.boot (envOf [])).map fun sys =>
          (sys.run [.gyroRuns 0 .osOK, .gyroRuns 0 .osOK, .gyroRuns 0 .osOK,
            .gyroRuns 0 .osOK]).observe) =
        some (0, 1, true, false) ∧
      ((System.boot (envOf [])).map fun sys =>
          (sys.run [.gyroRuns 0 .osOK, .gyroRuns 0 .osOK, .gyroRuns 0 .osOK,
            .timerFires, .gyroRuns 0 .osOK, .gyroRuns 0 .osOK, .gyroRuns 0 .osOK,
            .timerFires, .gyroRuns 0 .osOK, .gyroRuns 0 .osOK, .gyroRuns 0 .osOK]).observe) =
        some (2, 3, true, false) := by
  decide

/-- An instance of `sensorReads_eq_firings_add_one`: from the successful `appInit`
where every call succeeds, after two firings, with no context in `while(1){}`
and `gyroInput` blocked again, there are three reads. -/
theorem sensorReads_eq_firings_add_one_witness :
    ∃ sys, System.boot (envOf []) = some sys ∧
      (sys.run [.gyroRuns 0 .osOK, .gyroRuns 7 .osOK, .gyroRuns 0 .osOK, .timerFires,
          .gyroRuns 0 .osOK, .gyroRuns 0 .osOK, .gyroRuns 0 .osOK, .timerFires,
          .gyroRuns 0 .osOK, .gyroRuns 0 .osOK, .gyroRuns 0 .osOK]).faulted = false ∧
      (sys.run [.gyroRuns 0 .osOK, .gyroRuns 7 .osOK, .gyroRuns 0 .osOK, .timerFires,
          .gyroRuns 0 .osOK, .gyroRuns 0 .osOK, .gyroRuns 0 .osOK, .timerFires,
          .gyroRuns 0 .osOK, .gyroRuns 0 .osOK, .gyroRuns 0 .osOK]).gyroBlocked = true ∧
      (sys.run [.gyroRuns 0 .osOK, .gyroRuns 7 .osOK, .gyroRuns 0 .osOK, .timerFires,
          .gyroRuns 0 .osOK, .gyroRuns 0 .osOK, .gyroRuns 0 .osOK, .timerFires,
          .gyroRuns 0 .osOK, .gyroRuns 0 .osOK, .gyroRuns 0 .osOK]).timerFirings = 2 ∧
      (sys.run [.gyroRuns 0 .osOK, .gyroRuns 7 .osOK, .gyroRuns 0 .osOK, .timerFires,
          .gyroRuns 0 .osOK, .gyroRuns 0 .osOK, .gyroRuns 0 .osOK, .timerFires,
          .gyroRuns 0 .osOK, .gyroRuns 0 .osOK, .gyroRuns 0 .osOK]).sensorReads = 2 + 1 := by
  have hb : ∃ sys, System.boot (envOf []) = some sys := ⟨_, rfl⟩
  obtain ⟨sys, hsys⟩ := hb
  have h := sensorReads_eq_firings_add_one (envOf []) sys
    [.gyroRuns 0 .osOK, .gyroRuns 7 .osOK, .gyroRuns 0 .osOK, .timerFires,
      .gyroRuns 0 .osOK, .gyroRuns 0 .osOK, .gyroRuns 0 .osOK, .timerFires,
      .gyroRuns 0 .osOK, .gyroRuns 0 .osOK, .gyroRuns 0 .osOK] hsys
  have he := boot_eq (envOf []) sys hsys
  subst he
  refine ⟨_, hsys, by decide, by decide, by decide, ?_⟩
  rw [h (by decide) (by decide)]
  decide

end App
